import Mathlib

/-!
# s3manager: start-up, routing and the buckets view

A shallow embedding of `main.go` (configuration parsing, credential
selection, server timeouts, the route table) and of
`internal/app/s3manager/buckets_view.go` (the `HandleBucketsView` handler).

Go strings are `String` values, machine integers are `Int` with explicit
two's-complement wrapping, `log.Fatal*` is the `Except.error` branch carrying
the logged message, and everything the program obtains from outside (viper
settings, the file system, the S3 endpoint, the YAML decoder, the template
engine) is an explicit argument.
-/

namespace S3Manager

/-! ## Go runtime -/

/-- Go `len(s)` for a string: its length in bytes. -/
def len (s : String) : Nat := s.utf8ByteSize

/-- Conversion to `int32`: two's-complement wrap into `[-2^31, 2^31)`. -/
def int32 (x : Int) : Int := (x + 2 ^ 31) % 2 ^ 32 - 2 ^ 31

/-- Conversion to `int64`: two's-complement wrap into `[-2^63, 2^63)`. -/
def int64 (x : Int) : Int := (x + 2 ^ 63) % 2 ^ 64 - 2 ^ 63

/-- Go `time.Second`, a `time.Duration` (an `int64` count of nanoseconds). -/
def Second : Int := 1000000000

/-- Multiplication of two `int64` values, as Go computes it (wrapping). -/
def mulInt64 (a b : Int) : Int := int64 (a * b)

/-- A Go `error` value: either a plain message, or a message wrapping an inner
error (what `%w` produces). -/
inductive GoError where
  | plain (msg : String)
  | wrapping (msg : String) (inner : GoError)
deriving DecidableEq, Repr

/-- The `Error()` method. -/
def GoError.Error : GoError → String
  | .plain msg => msg
  | .wrapping msg _ => msg

/-- The `Unwrap()` result, as `errors.Unwrap` sees it. -/
def GoError.Unwrap : GoError → Option GoError
  | .plain _ => none
  | .wrapping _ inner => some inner

/-- The call `fmt.Errorf(context + "%w", err)`: the message is the context
followed by the message of `err`, and the result wraps `err`. -/
def Errorf_w (context : String) (err : GoError) : GoError :=
  .wrapping (context ++ err.Error) err

/-- The call `fmt.Errorf(msg)` with no verb in `msg`. -/
def Errorf (msg : String) : GoError := .plain msg

/-- Split a path at every `/`. -/
def splitSlash : List Char → List (List Char)
  | [] => [[]]
  | c :: cs =>
    if c = '/' then [] :: splitSlash cs
    else
      match splitSlash cs with
      | [] => [[c]]
      | seg :: segs => (c :: seg) :: segs

/-- Go `fs.ValidPath`: the name is `.` or a slash-separated sequence of
elements none of which is empty, `.` or `..`. -/
def ValidPath (name : String) : Bool :=
  name == "." ||
    (splitSlash name.toList).all (fun elem => elem != [] && elem != ['.'] && elem != ['.', '.'])

/-- The error of `fs.Sub(fsys, dir)` on an `embed.FS` (`none`: success): an
invalid path is the only failure, since `embed.FS` has no `Sub` method of its
own. -/
def fsSub (dir : String) : Option GoError :=
  if !ValidPath dir then some (.plain ("sub " ++ dir ++ ": invalid argument")) else none

/-! ## Configuration (`main.go`) -/

/-- The `configuration` struct of `main.go`. -/
structure configuration where
  Endpoint : String
  UseIam : Bool
  IamEndpoint : String
  AccessKeyID : String
  SecretAccessKey : String
  Region : String
  AllowDelete : Bool
  ForceDownload : Bool
  UseSSL : Bool
  SkipSSLVerification : Bool
  SignatureType : String
  ListRecursive : Bool
  Address : String
  Port : String
  Timeout : Int
  SseType : String
  SseKey : String
  SharedBucketsPath : String
  CaCert : String
deriving DecidableEq, Repr

/-- A value a viper default can hold. -/
inductive Value where
  | str (s : String)
  | bool (b : Bool)
  | int (i : Int)
deriving DecidableEq, Repr

/-- Outcome of `viper.ReadInConfig()`. -/
inductive ReadResult where
  | ok
  | configFileNotFound
  | failed (err : GoError)
deriving DecidableEq, Repr

/-- The viper registry as this program uses it. `strings`, `bools` and
`int32s` give, for a key that is set in the configuration file or the
environment, the value the typed getter casts it to; `defaults` holds what
`SetDefault` registered so far. -/
structure Viper where
  readInConfig : ReadResult
  strings : String → Option String
  bools : String → Option Bool
  int32s : String → Option Int
  defaults : String → Option Value

/-- The call `viper.SetDefault(key, value)`. -/
def Viper.SetDefault (v : Viper) (key : String) (value : Value) : Viper :=
  { v with defaults := fun k => if k = key then some value else v.defaults k }

/-- The call `viper.GetString(key)`: the set value, else the registered default,
else the zero value. -/
def Viper.GetString (v : Viper) (key : String) : String :=
  match v.strings key with
  | some s => s
  | none =>
    match v.defaults key with
    | some (.str s) => s
    | _ => ""

/-- The call `viper.GetBool(key)`. -/
def Viper.GetBool (v : Viper) (key : String) : Bool :=
  match v.bools key with
  | some b => b
  | none =>
    match v.defaults key with
    | some (.bool b) => b
    | _ => false

/-- The call `viper.GetInt32(key)`; the result is an `int32`. -/
def Viper.GetInt32 (v : Viper) (key : String) : Int :=
  match v.int32s key with
  | some i => int32 i
  | none =>
    match v.defaults key with
    | some (.int i) => int32 i
    | _ => 0

/-- The credential settings read by `parseConfiguration` (the `if useIam`
block): `(iamEndpoint, accessKeyID, secretAccessKey)`, the three variables
declared at the top of the function and left empty where not assigned. -/
def credentialSettings (v : Viper) (useIam : Bool) :
    Except String (String × String × String) :=
  if useIam then
    let iamEndpoint := v.GetString "iam_endpoint"
    .ok (iamEndpoint, "", "")
  else
    let accessKeyID := v.GetString "access_key_id"
    if len accessKeyID == 0 then
      .error "please provide ACCESS_KEY_ID"
    else
      let secretAccessKey := v.GetString "secret_access_key"
      if len secretAccessKey == 0 then
        .error "please provide SECRET_ACCESS_KEY"
      else
        .ok ("", accessKeyID, secretAccessKey)

/-- The function `parseConfiguration` of `main.go`. The `.error` branch is a
`log.Fatal` with that message. -/
def parseConfiguration (v : Viper) : Except String configuration :=
  match v.readInConfig with
  | .failed err => .error err.Error
  | _ =>
    let v := v.SetDefault "endpoint" (.str "s3.amazonaws.com")
    let endpoint := v.GetString "endpoint"
    let useIam := v.GetBool "use_iam"
    match credentialSettings v useIam with
    | .error msg => .error msg
    | .ok (iamEndpoint, accessKeyID, secretAccessKey) =>
      let region := v.GetString "region"
      let v := v.SetDefault "allow_delete" (.bool true)
      let allowDelete := v.GetBool "allow_delete"
      let v := v.SetDefault "force_download" (.bool true)
      let forceDownload := v.GetBool "force_download"
      let v := v.SetDefault "use_ssl" (.bool true)
      let useSSL := v.GetBool "use_ssl"
      let v := v.SetDefault "skip_ssl_verification" (.bool false)
      let skipSSLVerification := v.GetBool "skip_ssl_verification"
      let v := v.SetDefault "signature_type" (.str "V4")
      let signatureType := v.GetString "signature_type"
      let listRecursive := v.GetBool "list_recursive"
      let v := v.SetDefault "port" (.str "8080")
      let port := v.GetString "port"
      let v := v.SetDefault "address" (.str "")
      let address := v.GetString "address"
      let v := v.SetDefault "timeout" (.int 600)
      let timeout := v.GetInt32 "timeout"
      let v := v.SetDefault "sse_type" (.str "")
      let sseType := v.GetString "sse_type"
      let v := v.SetDefault "sse_key" (.str "")
      let sseKey := v.GetString "sse_key"
      let v := v.SetDefault "shared_buckets_path" (.str "")
      let sharedBucketsPath := v.GetString "shared_buckets_path"
      let v := v.SetDefault "ca_cert" (.str "")
      let caCert := v.GetString "ca_cert"
      .ok {
        Endpoint := endpoint
        UseIam := useIam
        IamEndpoint := iamEndpoint
        AccessKeyID := accessKeyID
        SecretAccessKey := secretAccessKey
        Region := region
        AllowDelete := allowDelete
        ForceDownload := forceDownload
        UseSSL := useSSL
        SkipSSLVerification := skipSSLVerification
        SignatureType := signatureType
        ListRecursive := listRecursive
        Port := port
        Address := address
        Timeout := timeout
        SseType := sseType
        SseKey := sseKey
        SharedBucketsPath := sharedBucketsPath
        CaCert := caCert }

/-! ## The S3 client options built by `main` -/

/-- The type `credentials.SignatureType` of minio-go (an `iota` enumeration whose
zero value is `SignatureDefault`). -/
inductive SignatureType where
  | SignatureDefault
  | SignatureV4
  | SignatureV2
  | SignatureV4Streaming
  | SignatureAnonymous
deriving DecidableEq, Repr

/-- What `credentials.NewIAM` and `credentials.NewStatic` were called with. -/
inductive Credentials where
  | NewIAM (endpoint : String)
  | NewStatic (id secret token : String) (signerType : SignatureType)
deriving DecidableEq, Repr

/-- The `switch configuration.SignatureType` of `main`; the `default` branch is
`log.Fatalf("Invalid SIGNATURE_TYPE: %s", ...)`. -/
def selectSignatureType (signatureType : String) : Except String SignatureType :=
  if signatureType = "V2" then .ok .SignatureV2
  else if signatureType = "V4" then .ok .SignatureV4
  else if signatureType = "V4Streaming" then .ok .SignatureV4Streaming
  else if signatureType = "Anonymous" then .ok .SignatureAnonymous
  else .error ("Invalid SIGNATURE_TYPE: " ++ signatureType)

/-- The `if configuration.UseIam` block of `main`: the value given to
`opts.Creds`. -/
def buildCredentials (c : configuration) : Except String Credentials :=
  if c.UseIam then
    .ok (.NewIAM c.IamEndpoint)
  else
    match selectSignatureType c.SignatureType with
    | .error msg => .error msg
    | .ok signatureType => .ok (.NewStatic c.AccessKeyID c.SecretAccessKey "" signatureType)

/-- The fields of `tls.Config` that `main` sets; `RootCAs` holds the PEM bytes
the pool was filled from. -/
structure TLSConfig where
  InsecureSkipVerify : Bool
  RootCAs : Option (List UInt8)
deriving DecidableEq, Repr

/-- The fields of `minio.Options` that `main` sets; `Transport` is the TLS
client configuration of the `http.Transport`, when one is installed. -/
structure Options where
  Secure : Bool
  Creds : Credentials
  Region : String
  Transport : Option TLSConfig
deriving DecidableEq, Repr

/-- What `main` reaches outside the process for, besides viper: the file
system, the PEM parser, and `minio.New` (its error, `none` on success). -/
structure Env where
  viper : Viper
  ReadFile : String → Except GoError (List UInt8)
  AppendCertsFromPEM : List UInt8 → Bool
  minioNew : String → Options → Option GoError

/-- The `if configuration.UseSSL` block of `main`: the transport installed in
the options (`none` when SSL is off). -/
def buildTransport (env : Env) (c : configuration) : Except String (Option TLSConfig) :=
  if c.UseSSL then
    if c.CaCert ≠ "" then
      match env.ReadFile c.CaCert with
      | .error err => .error ("Failed to read CA certificate file: " ++ err.Error)
      | .ok caCertContent =>
        if env.AppendCertsFromPEM caCertContent then
          .ok (some { InsecureSkipVerify := c.SkipSSLVerification, RootCAs := some caCertContent })
        else
          .error "Failed to parse CA certificate: %!w(<nil>)"
    else
      .ok (some { InsecureSkipVerify := c.SkipSSLVerification, RootCAs := none })
  else
    .ok none

/-! ## The route table built by `main` -/

/-- The type `s3manager.SSEType`; `Typ` is its field `Type`. -/
structure SSEType where
  Typ : String
  Key : String
deriving DecidableEq, Repr

/-- The handlers `main` registers, with the configuration values each
constructor call receives (the S3 client and the template file system are the
same for all of them). -/
inductive Handler where
  | RedirectHandler (url : String) (code : Nat)
  | StaticFileServer
  | HandleBucketsView (allowDelete : Bool) (sharedBucketsPath : String)
  | HandleBucketView (allowDelete listRecursive : Bool)
  | HandleCreateBucket
  | HandleDeleteBucket
  | HandleCreateObject (sseType : SSEType)
  | HandleGenerateUrl
  | HandleGetObject (forceDownload : Bool)
  | HandleDeleteObject
deriving DecidableEq, Repr

/-- A gorilla/mux route as `main` builds them: a path template, whether it was
registered with `PathPrefix` (otherwise `Handle`, a full-path match), the
handler, and the argument of `.Methods(...)`. -/
structure Route where
  template : String
  pathPrefixed : Bool
  handler : Handler
  methods : List String
deriving DecidableEq, Repr

/-- The call `r.Handle(template, handler).Methods(method)`. -/
def Handle (template : String) (handler : Handler) (method : String) : Route :=
  { template := template, pathPrefixed := false, handler := handler, methods := [method] }

/-- The call `r.PathPrefix(template).Handler(handler).Methods(method)`. -/
def PathPrefixHandler (template : String) (handler : Handler) (method : String) : Route :=
  { template := template, pathPrefixed := true, handler := handler, methods := [method] }

/-- The constant `http.MethodGet`. -/
def MethodGet : String := "GET"

/-- The constant `http.MethodPost`. -/
def MethodPost : String := "POST"

/-- The constant `http.MethodDelete`. -/
def MethodDelete : String := "DELETE"

/-- The constant `http.StatusPermanentRedirect`. -/
def StatusPermanentRedirect : Nat := 308

/-- The router set-up of `main` (from `mux.NewRouter()` to the last `r.Handle`),
in registration order. -/
def buildRouter (c : configuration) : List Route :=
  let sseType : SSEType := { Typ := c.SseType, Key := c.SseKey }
  let r : List Route := []
  let r := r ++ [Handle "/" (.RedirectHandler "/buckets" StatusPermanentRedirect) MethodGet]
  let r := r ++ [PathPrefixHandler "/static/" .StaticFileServer MethodGet]
  let r := r ++ [Handle "/buckets" (.HandleBucketsView c.AllowDelete c.SharedBucketsPath) MethodGet]
  let r := r ++ [PathPrefixHandler "/buckets/" (.HandleBucketView c.AllowDelete c.ListRecursive) MethodGet]
  let r := r ++ [Handle "/api/buckets" .HandleCreateBucket MethodPost]
  let r := if c.AllowDelete then
      r ++ [Handle "/api/buckets/{bucketName}" .HandleDeleteBucket MethodDelete]
    else r
  let r := r ++ [Handle "/api/buckets/{bucketName}/objects" (.HandleCreateObject sseType) MethodPost]
  let r := r ++ [Handle "/api/buckets/{bucketName}/objects/{objectName:.*}/url" .HandleGenerateUrl MethodGet]
  let r := r ++ [Handle "/api/buckets/{bucketName}/objects/{objectName:.*}" (.HandleGetObject c.ForceDownload) MethodGet]
  let r := if c.AllowDelete then
      r ++ [Handle "/api/buckets/{bucketName}/objects/{objectName:.*}" .HandleDeleteObject MethodDelete]
    else r
  r

/-- The `http.Server` value `main` builds, on which it calls `ListenAndServe`. -/
structure Server where
  Addr : String
  Handler : List Route
  ReadTimeout : Int
  WriteTimeout : Int
deriving DecidableEq, Repr

/-- The value `serverTimeout := time.Duration(configuration.Timeout) * time.Second`
of `main`: the `int32` is converted to `int64` and multiplied in `int64`. -/
def serverTimeout (c : configuration) : Int :=
  mulInt64 (int64 c.Timeout) Second

/-- The body of `main` after `parseConfiguration()`, up to the point where
`srv.ListenAndServe()` is called. The `.error` branch is a `log.Fatal*` with
that message. -/
def startServer (env : Env) (c : configuration) : Except String (Options × Server) :=
  let serverTimeout := serverTimeout c
  match fsSub "web/template" with
  | some err => .error err.Error
  | none =>
    match fsSub "web/static" with
    | some err => .error err.Error
    | none =>
      match buildCredentials c with
      | .error msg => .error msg
      | .ok creds =>
        match buildTransport env c with
        | .error msg => .error msg
        | .ok transport =>
          let opts : Options :=
            { Secure := c.UseSSL
              Creds := creds
              Region := if c.Region ≠ "" then c.Region else ""
              Transport := transport }
          match env.minioNew c.Endpoint opts with
          | some err => .error ("error creating s3 client: " ++ err.Error)
          | none =>
            let r := buildRouter c
            .ok (opts,
              { Addr := c.Address ++ ":" ++ c.Port
                Handler := r
                ReadTimeout := serverTimeout
                WriteTimeout := serverTimeout })

/-- The function `main` of `main.go`, up to `srv.ListenAndServe()`. -/
def main (env : Env) : Except String (Options × Server) :=
  match parseConfiguration env.viper with
  | .error msg => .error msg
  | .ok c => startServer env c

/-! ## Request dispatch by the gorilla/mux router

The router is a library; what follows is its matching procedure for the routes
this program registers: a path template with `{name}` and `{name:.*}`
variables, a full-path or path-prefix match, and one method per route. -/

/-- A piece of the regular expression mux compiles a path template to:
a quoted literal, `[^/]+` (a variable with no pattern) or `.*`. -/
inductive Piece where
  | literal (raw : List Char)
  | segment
  | dotStar
deriving DecidableEq, Repr

/-- Split the text between two braces at its first `:`, as
`strings.SplitN(.., ":", 2)` does: the name, and the pattern when there is one. -/
def splitColon : List Char → List Char × Option (List Char)
  | [] => ([], none)
  | c :: cs =>
    if c = ':' then ([], some cs)
    else
      let (name, patt) := splitColon cs
      (c :: name, patt)

/-- The regular expression piece of a `{...}` variable; `none` for an empty name
(a template error in mux) and for a pattern other than `.*`, which no route of
this program has. -/
def variablePiece (inner : List Char) : Option Piece :=
  match splitColon inner with
  | ([], _) => none
  | (_, none) => some .segment
  | (_, some patt) => if patt = ['.', '*'] then some .dotStar else none

/-- Scanner state of the template parser: inside literal text or inside a
brace, with the characters read so far (latest first). -/
inductive Scan where
  | raw (acc : List Char)
  | brace (acc : List Char)

/-- The pieces of a path template, left to right (`newRouteRegexp` of mux). -/
def parseTemplate : List Char → Scan → Option (List Piece)
  | [], .raw acc => some [.literal acc.reverse]
  | [], .brace _ => none
  | c :: cs, .raw acc =>
    if c = '{' then (parseTemplate cs (.brace [])).map (fun ps => .literal acc.reverse :: ps)
    else if c = '}' then none
    else parseTemplate cs (.raw (c :: acc))
  | c :: cs, .brace acc =>
    if c = '}' then
      match variablePiece acc.reverse with
      | none => none
      | some piece => (parseTemplate cs (.raw [])).map (fun ps => piece :: ps)
    else if c = '{' then none
    else parseTemplate cs (.brace (c :: acc))

/-- Remove a literal from the front of a string, if it is there. -/
def dropLiteral : List Char → List Char → Option (List Char)
  | [], s => some s
  | _ :: _, [] => none
  | c :: cs, d :: s => if c = d then dropLiteral cs s else none

/-- Match `x*` followed by the continuation `k`, where `x` is a character class:
some number of leading characters of the class, then `k` on the rest. -/
def starThen (ok : Char → Bool) (k : List Char → Bool) : List Char → Bool
  | [] => k []
  | c :: cs => k (c :: cs) || (ok c && starThen ok k cs)

/-- Whether the regular expression `^pieces$` (`anchored`) or `^pieces`
(a path prefix) matches the string. In Go, `.` does not match a newline and
`[^/]` does. -/
def matchPieces (anchored : Bool) : List Piece → List Char → Bool
  | [], s => !anchored || s.isEmpty
  | .literal raw :: ps, s =>
    match dropLiteral raw s with
    | some rest => matchPieces anchored ps rest
    | none => false
  | .segment :: ps, s =>
    match s with
    | [] => false
    | c :: cs => c != '/' && starThen (fun x => x != '/') (matchPieces anchored ps) cs
  | .dotStar :: ps, s => starThen (fun x => x != '\n') (matchPieces anchored ps) s

/-- The path matcher of a route applied to a request path. -/
def Route.matchPath (r : Route) (path : String) : Bool :=
  match parseTemplate r.template.toList (.raw []) with
  | none => false
  | some pieces => matchPieces (!r.pathPrefixed) pieces path.toList

/-- The method matcher of a route applied to a request method. -/
def Route.matchMethod (r : Route) (method : String) : Bool :=
  r.methods.contains method

/-- Result of matching one route (`Route.Match`). -/
inductive RouteResult where
  | matched
  | methodMismatch
  | noMatch
deriving DecidableEq, Repr

/-- The method `Route.Match`: every matcher must accept the request; a route
whose path matches and whose method does not records `ErrMethodMismatch`. -/
def Route.Match (r : Route) (method path : String) : RouteResult :=
  if r.matchPath path then
    if r.matchMethod method then .matched else .methodMismatch
  else .noMatch

/-- What the router does with a request. -/
inductive Dispatch where
  | handler (h : Handler)
  | movedPermanently (location : String)
  | methodNotAllowed
  | notFound
deriving DecidableEq, Repr

/-- The method `Router.Match`: the first route that matches wins; when none
does, the answer is 405 if some route matched on everything but the method
(`mismatch`), else 404. -/
def RouterMatch (method path : String) : List Route → Bool → Dispatch
  | [], mismatch => if mismatch then .methodNotAllowed else .notFound
  | r :: rs, mismatch =>
    match r.Match method path with
    | .matched => .handler r.handler
    | .methodMismatch => RouterMatch method path rs true
    | .noMatch => RouterMatch method path rs mismatch

/-- The elements of a rooted path that `path.Clean` keeps: empty and `.`
elements are dropped, `..` removes the element before it (or nothing, at the
root). `kept` holds the elements kept so far, latest first. -/
def cleanElements : List (List Char) → List (List Char) → List (List Char)
  | [], kept => kept.reverse
  | seg :: segs, kept =>
    if seg = [] ∨ seg = ['.'] then cleanElements segs kept
    else if seg = ['.', '.'] then cleanElements segs kept.tail
    else cleanElements segs (seg :: kept)

/-- Go `path.Clean` on a rooted path. -/
def pathCleanRooted (p : List Char) : List Char :=
  '/' :: (['/'].intercalate (cleanElements (splitSlash p) []))

/-- The function `cleanPath` of mux: the canonical form of a request path,
keeping a trailing slash. -/
def cleanPath (p : List Char) : List Char :=
  if p = [] then ['/']
  else
    let p := if p.head? ≠ some '/' then '/' :: p else p
    let np := pathCleanRooted p
    if p.getLast? = some '/' ∧ np ≠ ['/'] then np ++ ['/'] else np

/-- The method `Router.ServeHTTP` (path cleaning is on by default): a request
whose path is not in canonical form is answered with a 301 to the cleaned path;
otherwise the request goes to the handler of the first matching route. -/
def ServeHTTP (routes : List Route) (method path : String) : Dispatch :=
  let p := cleanPath path.toList
  if p ≠ path.toList then .movedPermanently (String.mk p)
  else RouterMatch method path routes false

/-! ## The buckets view (`buckets_view.go`) -/

/-- Go `time.Time` without its location: the `wall` word (`uint64`) and the
`ext` word (`int64`). The zero value has both words zero. -/
structure Time where
  wall : Nat
  ext : Int
deriving DecidableEq, Repr

/-- The constant `wallToInternal` of package `time`: seconds from year 1 to 1885. -/
def wallToInternal : Int := (1884 * 365 + 1884 / 4 - 1884 / 100 + 1884 / 400) * 86400

/-- The method `(*Time).nsec`: `wall & nsecMask`, the low 30 bits. -/
def Time.nsec (t : Time) : Int := (t.wall % 2 ^ 30 : Nat)

/-- The method `(*Time).sec`: with the `hasMonotonic` bit (bit 63) set the seconds
are `wallToInternal + int64(wall << 1 >> 31)`, otherwise they are `ext`. -/
def Time.sec (t : Time) : Int :=
  if t.wall / 2 ^ 63 % 2 ≠ 0 then
    wallToInternal + int64 ((t.wall * 2 % 2 ^ 64 / 2 ^ 31 : Nat))
  else t.ext

/-- The method `Time.IsZero`. -/
def Time.IsZero (t : Time) : Bool := t.sec == 0 && t.nsec == 0

/-- The type `minio.BucketInfo`. -/
structure BucketInfo where
  Name : String
  CreationDate : Time
deriving DecidableEq, Repr

/-- The composite literal `minio.BucketInfo{Name: name}`: every other field has
its zero value. -/
def BucketInfo.ofName (name : String) : BucketInfo :=
  { Name := name, CreationDate := { wall := 0, ext := 0 } }

/-- The template function `time_defined` registered by the handler. -/
def time_defined (t : Time) : Bool := !t.IsZero

/-- The local type `pageData` of `HandleBucketsView`. -/
structure pageData where
  Buckets : List BucketInfo
  AllowDelete : Bool
deriving DecidableEq, Repr

/-- An object returned by `GetObject`: what `ioutil.ReadAll` yields on it. -/
structure Object where
  ReadAll : Except GoError (List UInt8)

/-- The `S3` interface as the handler uses it: how the client answers during
one request. -/
structure S3 where
  ListBuckets : Except GoError (List BucketInfo)
  GetObject : String → String → Except GoError Object

/-- The template engine over the `templates` file system: the result of
`ParseFS` on the given file names and of `ExecuteTemplate` on the parsed set. -/
structure Templates where
  ParseFS : List String → Option GoError
  ExecuteTemplate : String → pageData → Option GoError

/-- What the handler does that is visible outside it, in order. -/
inductive Event where
  | ListBuckets
  | GetObject (bucketName objectName : String)
  | ReadAll
  | Unmarshal (bs : List UInt8)
  | ParseFS (files : List String)
  | ExecuteTemplate (name : String) (data : pageData)
  | handleHTTPError (err : GoError)
deriving DecidableEq, Repr

/-- First occurrence of a separator character: the text before it and the text
after it (`strings.Index` and the two slices `genSplit` takes). -/
def cut (sep : Char) : List Char → Option (List Char × List Char)
  | [] => none
  | c :: cs =>
    if c = sep then some ([], cs)
    else
      match cut sep cs with
      | none => none
      | some (before, after) => some (c :: before, after)

/-- The loop of `strings.genSplit`: at most `n` cuts, then the remainder. -/
def splitLoop (sep : Char) : Nat → List Char → List (List Char)
  | 0, s => [s]
  | n + 1, s =>
    match cut sep s with
    | none => [s]
    | some (before, after) => before :: splitLoop sep n after

/-- Go `strings.SplitN(s, sep, n)` for a one-character separator and `n ≥ 0`:
at most `n` substrings, the last one the unsplit remainder. -/
def SplitN (s : String) (sep : Char) (n : Nat) : List String :=
  if n = 0 then []
  else
    let n := if n > len s + 1 then len s + 1 else n
    (splitLoop sep (n - 1) s.toList).map String.mk

/-- The `for _, name := range additionalBuckets` loop. -/
def appendBuckets (buckets : List BucketInfo) (additionalBuckets : List String) :
    List BucketInfo :=
  additionalBuckets.foldl (fun buckets name => buckets ++ [BucketInfo.ofName name]) buckets

/-- The `if sharedBucketsPath != ""` block of the handler: what it does, and the
bucket list after it (`none` when the handler has returned inside the block). -/
def sharedBuckets (s3 : S3) (Unmarshal : List UInt8 → Except GoError (List String))
    (sharedBucketsPath : String) (buckets : List BucketInfo) :
    List Event × Option (List BucketInfo) :=
  if sharedBucketsPath ≠ "" then
    match SplitN sharedBucketsPath '/' 2 with
    | [bucketName, path] =>
      match s3.GetObject bucketName path with
      | .error err =>
        ([.GetObject bucketName path,
          .handleHTTPError (Errorf_w "error getting shared buckets object: " err)], none)
      | .ok object =>
        match object.ReadAll with
        | .error bErr =>
          ([.GetObject bucketName path, .ReadAll,
            .handleHTTPError (Errorf_w "error getting shared buckets object: " bErr)], none)
        | .ok bs =>
          match Unmarshal bs with
          | .error err =>
            ([.GetObject bucketName path, .ReadAll, .Unmarshal bs,
              .handleHTTPError (Errorf_w "error getting shared buckets object: " err)], none)
          | .ok additionalBuckets =>
            ([.GetObject bucketName path, .ReadAll, .Unmarshal bs],
              some (appendBuckets buckets additionalBuckets))
    | _ =>
      ([.handleHTTPError
          (Errorf "error getting shared buckets object: Shared path is not valid")], none)
  else
    ([], some buckets)

/-- The end of the handler: parse the two template files and execute `layout`. -/
def render (templates : Templates) (data : pageData) : List Event :=
  match templates.ParseFS ["layout.html.tmpl", "buckets.html.tmpl"] with
  | some err =>
    [.ParseFS ["layout.html.tmpl", "buckets.html.tmpl"],
      .handleHTTPError (Errorf_w "error parsing template files: " err)]
  | none =>
    match templates.ExecuteTemplate "layout" data with
    | some err =>
      [.ParseFS ["layout.html.tmpl", "buckets.html.tmpl"], .ExecuteTemplate "layout" data,
        .handleHTTPError (Errorf_w "error executing template: " err)]
    | none =>
      [.ParseFS ["layout.html.tmpl", "buckets.html.tmpl"], .ExecuteTemplate "layout" data]

/-- The function returned by `HandleBucketsView(s3, templates, allowDelete,
sharedBucketsPath)`, run on one request: the events it produces. `Unmarshal` is
`yaml.Unmarshal` into a `[]string`. -/
def HandleBucketsView (s3 : S3) (templates : Templates)
    (Unmarshal : List UInt8 → Except GoError (List String))
    (allowDelete : Bool) (sharedBucketsPath : String) : List Event :=
  match s3.ListBuckets with
  | .error err =>
    [.ListBuckets, .handleHTTPError (Errorf_w "error listing buckets: " err)]
  | .ok buckets =>
    match sharedBuckets s3 Unmarshal sharedBucketsPath buckets with
    | (events, none) => .ListBuckets :: events
    | (events, some buckets) =>
      .ListBuckets :: events ++ render templates { Buckets := buckets, AllowDelete := allowDelete }

/-- Whether an event is an upstream S3 call. -/
def Event.isS3Call : Event → Bool
  | .ListBuckets => true
  | .GetObject _ _ => true
  | _ => false

/-- Whether an event writes (part of) the response: an error response or the
rendered page. -/
def Event.isResponse : Event → Bool
  | .handleHTTPError _ => true
  | .ExecuteTemplate _ _ => true
  | _ => false

/-- Whether an event is an error report. -/
def Event.isError : Event → Bool
  | .handleHTTPError _ => true
  | _ => false

/-- Whether an event is a template step. -/
def Event.isTemplate : Event → Bool
  | .ParseFS _ => true
  | .ExecuteTemplate _ _ => true
  | _ => false

/-- Number of upstream S3 calls in a run. -/
def s3Calls (events : List Event) : Nat := (events.filter Event.isS3Call).length

/-- Number of upstream S3 calls made before the first response event. -/
def s3CallsBeforeResponse (events : List Event) : Nat :=
  s3Calls (events.takeWhile (fun e => !e.isResponse))

/-- Whether an event is a `GetObject` call. -/
def Event.isGetObject : Event → Bool
  | .GetObject _ _ => true
  | _ => false

/-- A run that ends by reporting `err`: the report is the last event and the
only error report, no template step ran, and no event occurs twice. -/
def failsWith (run : List Event) (err : GoError) : Prop :=
  run.getLast? = some (.handleHTTPError err) ∧
    run.filter Event.isError = [.handleHTTPError err] ∧
    run.all (fun e => !e.isTemplate) = true ∧ run.Nodup

/-- The request path `/api/buckets/{bucketName}/objects/{objectName}/url` for a
bucket name and an object key. -/
def objectUrlPath (bucketName objectName : String) : String :=
  "/api/buckets/" ++ bucketName ++ "/objects/" ++ objectName ++ "/url"

/-- A configuration `parseConfiguration` returns when only the two access keys
are set. -/
def exampleConfiguration : configuration :=
  { Endpoint := "s3.amazonaws.com", UseIam := false, IamEndpoint := "", AccessKeyID := "id",
    SecretAccessKey := "secret", Region := "", AllowDelete := true, ForceDownload := true,
    UseSSL := true, SkipSSLVerification := false, SignatureType := "V4", ListRecursive := false,
    Address := "", Port := "8080", Timeout := 600, SseType := "", SseKey := "",
    SharedBucketsPath := "", CaCert := "" }

/-- Settings with only the two access keys set and no configuration file. -/
def exampleViper : Viper :=
  { readInConfig := .configFileNotFound
    strings := fun key =>
      if key = "access_key_id" then some "id"
      else if key = "secret_access_key" then some "secret"
      else none
    bools := fun _ => none
    int32s := fun _ => none
    defaults := fun _ => none }

/-- An environment over `exampleViper` in which the S3 client is created. -/
def exampleEnv : Env :=
  { viper := exampleViper
    ReadFile := fun _ => .error (.plain "no such file")
    AppendCertsFromPEM := fun _ => false
    minioNew := fun _ _ => none }

/-- The route is in the table, and it is the only route with its handler and the
only route on its path template that does not take DELETE. -/
def registeredExactly (routes : List Route) (R : Route) : Prop :=
  R ∈ routes ∧
    ∀ r ∈ routes,
      (r.handler = R.handler ∨
        (r.template = R.template ∧ r.pathPrefixed = R.pathPrefixed ∧ MethodDelete ∉ r.methods)) →
      r = R

/-- The four strings the `switch` of `main` accepts. -/
def acceptedSignatureTypes : List String := ["V2", "V4", "V4Streaming", "Anonymous"]

/-- A configuration with deletion switched off. -/
def readOnlyConfiguration : configuration := { exampleConfiguration with AllowDelete := false }

/-- An S3 client that lists one bucket and serves a three-byte object. -/
def exampleS3 : S3 :=
  { ListBuckets := .ok [{ Name := "photos", CreationDate := { wall := 0, ext := 63800000000 } }]
    GetObject := fun _ _ => .ok { ReadAll := .ok [45, 32, 97] } }

/-- An S3 client whose `ListBuckets` fails. -/
def failingS3 : S3 :=
  { ListBuckets := .error (.plain "connection refused")
    GetObject := fun _ _ => .error (.plain "connection refused") }

/-- A template engine on which parsing and execution succeed. -/
def exampleTemplates : Templates :=
  { ParseFS := fun _ => none
    ExecuteTemplate := fun _ _ => none }

/-- A YAML decoder that yields two names, one of them equal to a listed bucket. -/
def exampleUnmarshal : List UInt8 → Except GoError (List String) :=
  fun _ => .ok ["photos", "shared"]

/-- A configuration that selects IAM credentials and carries a signature type
the `switch` of `main` does not know. -/
def iamConfiguration : configuration :=
  { exampleConfiguration with
    UseIam := true
    AccessKeyID := ""
    SecretAccessKey := ""
    SignatureType := "bogus" }

/-- Settings like `exampleViper` with, in addition, `ca_cert` naming a file. -/
def unreadableCaViper : Viper :=
  { readInConfig := .configFileNotFound
    strings := fun key =>
      if key = "access_key_id" then some "id"
      else if key = "secret_access_key" then some "secret"
      else if key = "ca_cert" then some "/etc/ssl/missing.pem"
      else none
    bools := fun _ => none
    int32s := fun _ => none
    defaults := fun _ => none }

/-- The configuration `parseConfiguration` returns on `unreadableCaViper`. -/
def unreadableCaConfiguration : configuration :=
  { exampleConfiguration with CaCert := "/etc/ssl/missing.pem" }

/-- An environment over `unreadableCaViper` in which no file can be read. -/
def unreadableCaEnv : Env :=
  { viper := unreadableCaViper
    ReadFile := fun _ => .error (.plain "open /etc/ssl/missing.pem: no such file or directory")
    AppendCertsFromPEM := fun _ => false
    minioNew := fun _ _ => none }

/-- Requests reach the handler only with the given method: whatever the path,
a request the router hands to `h` has that method. -/
def servedOnlyBy (routes : List Route) (method : String) (h : Handler) : Prop :=
  ∀ m p, ServeHTTP routes m p = .handler h → m = method

/-! ## Auxiliary facts -/

theorem len_eq_zero_iff (s : String) : len s = 0 ↔ s = "" := by
  cases s with
  | mk cs =>
    cases cs with
    | nil => simp [len, String.utf8ByteSize, String.utf8ByteSize.go]
    | cons c cs =>
      have hc := Char.utf8Size_pos c
      simp [len, String.utf8ByteSize, String.utf8ByteSize.go]
      constructor
      · omega
      · intro h
        exact absurd (congrArg String.data h) (by simp)

theorem fsSub_template : fsSub "web/template" = none := by decide

theorem fsSub_static : fsSub "web/static" = none := by decide

theorem int64_of_bounds (x : Int) (h1 : -2 ^ 63 ≤ x) (h2 : x < 2 ^ 63) : int64 x = x := by
  unfold int64
  omega

theorem int32_bounds (x : Int) : -2 ^ 31 ≤ int32 x ∧ int32 x < 2 ^ 31 := by
  unfold int32
  omega

theorem serverTimeout_exact (c : configuration)
    (h1 : -2 ^ 31 ≤ c.Timeout) (h2 : c.Timeout < 2 ^ 31) :
    serverTimeout c = c.Timeout * 1000000000 := by
  unfold serverTimeout mulInt64 Second
  rw [int64_of_bounds c.Timeout (by omega) (by omega)]
  exact int64_of_bounds _ (by omega) (by omega)

theorem startServer_creds (env : Env) (c : configuration) (opts : Options) (srv : Server)
    (h : startServer env c = .ok (opts, srv)) :
    buildCredentials c = .ok opts.Creds ∧ srv.Handler = buildRouter c ∧
      srv.ReadTimeout = serverTimeout c ∧ srv.WriteTimeout = serverTimeout c := by
  simp only [startServer, fsSub_template, fsSub_static] at h
  cases hc : buildCredentials c with
  | error msg => simp [hc] at h
  | ok creds =>
    cases ht : buildTransport env c with
    | error msg => simp [hc, ht] at h
    | ok transport =>
      simp only [hc, ht] at h
      split at h
      · simp at h
      · simp only [Except.ok.injEq, Prod.mk.injEq] at h
        obtain ⟨h1, h2⟩ := h
        subst h1 h2
        simp

theorem startServer_invalid_signature (env : Env) (c : configuration) (h : c.UseIam = false)
    (hs : c.SignatureType ∉ ["V2", "V4", "V4Streaming", "Anonymous"]) :
    startServer env c = .error ("Invalid SIGNATURE_TYPE: " ++ c.SignatureType) := by
  simp only [List.mem_cons, List.mem_singleton, List.not_mem_nil, or_false, not_or] at hs
  obtain ⟨h1, h2, h3, h4⟩ := hs
  simp [startServer, fsSub_template, fsSub_static, buildCredentials, h, selectSignatureType,
    h1, h2, h3, h4]

theorem getInt32_timeout_default (v : Viper) (h : v.int32s "timeout" = none) :
    (v.SetDefault "timeout" (.int 600)).GetInt32 "timeout" = 600 := by
  simp [Viper.GetInt32, Viper.SetDefault, h, int32]

theorem parseConfiguration_timeout (v : Viper) (c : configuration)
    (h : parseConfiguration v = .ok c) :
    (-2 ^ 31 ≤ c.Timeout ∧ c.Timeout < 2 ^ 31) ∧
      (v.int32s "timeout" = none → c.Timeout = 600) := by
  unfold parseConfiguration at h
  split at h
  · simp at h
  · dsimp only at h
    split at h
    · simp at h
    · simp only [Except.ok.injEq] at h
      subst h
      refine ⟨?_, ?_⟩
      · simp only [Viper.GetInt32, Viper.SetDefault]
        split
        · exact int32_bounds _
        · simp
          exact int32_bounds _
      · intro hn
        simp [Viper.GetInt32, Viper.SetDefault, hn, int32]

/-! ### The route table -/

theorem buildRouter_deleteOff (c : configuration) (h : c.AllowDelete = false) :
    buildRouter c =
      [Handle "/" (.RedirectHandler "/buckets" StatusPermanentRedirect) MethodGet,
        PathPrefixHandler "/static/" .StaticFileServer MethodGet,
        Handle "/buckets" (.HandleBucketsView c.AllowDelete c.SharedBucketsPath) MethodGet,
        PathPrefixHandler "/buckets/" (.HandleBucketView c.AllowDelete c.ListRecursive) MethodGet,
        Handle "/api/buckets" .HandleCreateBucket MethodPost,
        Handle "/api/buckets/{bucketName}/objects"
          (.HandleCreateObject { Typ := c.SseType, Key := c.SseKey }) MethodPost,
        Handle "/api/buckets/{bucketName}/objects/{objectName:.*}/url" .HandleGenerateUrl MethodGet,
        Handle "/api/buckets/{bucketName}/objects/{objectName:.*}"
          (.HandleGetObject c.ForceDownload) MethodGet] := by
  simp [buildRouter, h]

theorem buildRouter_deleteOn (c : configuration) (h : c.AllowDelete = true) :
    buildRouter c =
      [Handle "/" (.RedirectHandler "/buckets" StatusPermanentRedirect) MethodGet,
        PathPrefixHandler "/static/" .StaticFileServer MethodGet,
        Handle "/buckets" (.HandleBucketsView c.AllowDelete c.SharedBucketsPath) MethodGet,
        PathPrefixHandler "/buckets/" (.HandleBucketView c.AllowDelete c.ListRecursive) MethodGet,
        Handle "/api/buckets" .HandleCreateBucket MethodPost,
        Handle "/api/buckets/{bucketName}" .HandleDeleteBucket MethodDelete,
        Handle "/api/buckets/{bucketName}/objects"
          (.HandleCreateObject { Typ := c.SseType, Key := c.SseKey }) MethodPost,
        Handle "/api/buckets/{bucketName}/objects/{objectName:.*}/url" .HandleGenerateUrl MethodGet,
        Handle "/api/buckets/{bucketName}/objects/{objectName:.*}"
          (.HandleGetObject c.ForceDownload) MethodGet,
        Handle "/api/buckets/{bucketName}/objects/{objectName:.*}" .HandleDeleteObject
          MethodDelete] := by
  simp [buildRouter, h]

theorem RouterMatch_no_method (method path : String) (routes : List Route)
    (h : ∀ r ∈ routes, r.matchMethod method = false) (mismatch : Bool) (hd : Handler) :
    RouterMatch method path routes mismatch ≠ .handler hd := by
  induction routes generalizing mismatch with
  | nil =>
    unfold RouterMatch
    split <;> simp
  | cons r rs ih =>
    have hr : r.matchMethod method = false := h r (List.mem_cons_self _ _)
    have hrs : ∀ r ∈ rs, r.matchMethod method = false :=
      fun r' hr' => h r' (List.mem_cons_of_mem _ hr')
    unfold RouterMatch
    cases hm : r.Match method path with
    | matched =>
      unfold Route.Match at hm
      rw [hr] at hm
      split at hm <;> simp at hm
    | methodMismatch => exact ih hrs true
    | noMatch => exact ih hrs mismatch

theorem ServeHTTP_no_method (method path : String) (routes : List Route)
    (h : ∀ r ∈ routes, r.matchMethod method = false) (hd : Handler) :
    ServeHTTP routes method path ≠ .handler hd := by
  unfold ServeHTTP
  dsimp only
  split
  · simp
  · exact RouterMatch_no_method method path routes h false hd

theorem deleteOff_no_delete_route (c : configuration) (h : c.AllowDelete = false) :
    ∀ r ∈ buildRouter c, r.matchMethod MethodDelete = false := by
  rw [buildRouter_deleteOff c h]
  intro r hr
  simp only [List.mem_cons, List.mem_singleton, List.not_mem_nil, or_false] at hr
  rcases hr with rfl | rfl | rfl | rfl | rfl | rfl | rfl | rfl <;>
    simp [Handle, PathPrefixHandler, Route.matchMethod, MethodGet, MethodPost, MethodDelete]

/-! ### Matching of path templates -/

theorem dropLiteral_append (l r : List Char) : dropLiteral l (l ++ r) = some r := by
  induction l with
  | nil => cases r <;> rfl
  | cons c cs ih => simp [dropLiteral, ih]

theorem starThen_append (ok : Char → Bool) (k : List Char → Bool) (pre rest : List Char)
    (hpre : ∀ c ∈ pre, ok c = true) (hk : k rest = true) :
    starThen ok k (pre ++ rest) = true := by
  induction pre with
  | nil =>
    cases rest with
    | nil => simpa [starThen] using hk
    | cons c cs => simp [starThen, hk]
  | cons c cs ih =>
    have h1 : ok c = true := hpre c (List.mem_cons_self _ _)
    have h2 : ∀ c ∈ cs, ok c = true := fun d hd => hpre d (List.mem_cons_of_mem _ hd)
    simp [starThen, h1, ih h2]

theorem tpl_url :
    parseTemplate "/api/buckets/{bucketName}/objects/{objectName:.*}/url".toList (.raw []) =
      some [.literal "/api/buckets/".toList, .segment, .literal "/objects/".toList, .dotStar,
        .literal "/url".toList] := by decide

theorem matchPieces_url (A B C b k : List Char) (hb : b ≠ [])
    (hbs : ∀ c ∈ b, c ≠ '/') (hk : ∀ c ∈ k, c ≠ '\n') :
    matchPieces true [.literal A, .segment, .literal B, .dotStar, .literal C]
      (A ++ (b ++ (B ++ (k ++ C)))) = true := by
  have h3 : matchPieces true [.literal C] C = true := by
    have hC := dropLiteral_append C []
    rw [List.append_nil] at hC
    simp [matchPieces, hC]
  have h2 : matchPieces true [.dotStar, .literal C] (k ++ C) = true := by
    simp only [matchPieces]
    exact starThen_append _ _ k C (by simpa using hk) h3
  have h1 : matchPieces true [.literal B, .dotStar, .literal C] (B ++ (k ++ C)) = true := by
    simp only [matchPieces, dropLiteral_append]
    exact h2
  cases b with
  | nil => exact absurd rfl hb
  | cons c cs =>
    have hc : (c != '/') = true := by simpa using hbs c (List.mem_cons_self _ _)
    have hcs : ∀ d ∈ cs, (fun x => x != '/') d = true := by
      intro d hd
      simpa using hbs d (List.mem_cons_of_mem _ hd)
    simp only [matchPieces, dropLiteral_append, List.cons_append]
    rw [hc, Bool.true_and]
    exact starThen_append _ _ cs _ hcs h1

theorem tpl_get :
    parseTemplate "/api/buckets/{bucketName}/objects/{objectName:.*}".toList (.raw []) =
      some [.literal "/api/buckets/".toList, .segment, .literal "/objects/".toList, .dotStar,
        .literal []] := by decide

theorem objectUrlPath_toList (b k : String) :
    (objectUrlPath b k).toList =
      "/api/buckets/".toList ++ (b.toList ++ ("/objects/".toList ++ (k.toList ++ "/url".toList))) := by
  simp [objectUrlPath, String.toList, String.data_append]

theorem objectUrlPath_toList_get (b k : String) :
    (objectUrlPath b k).toList =
      "/api/buckets/".toList ++
        (b.toList ++ ("/objects/".toList ++ ((k.toList ++ "/url".toList) ++ []))) := by
  simp [objectUrlPath, String.toList, String.data_append]

theorem objectUrlPath_head (b k : String) :
    ∃ rest, (objectUrlPath b k).toList = '/' :: 'a' :: rest := by
  rw [objectUrlPath_toList]
  exact ⟨_, rfl⟩

theorem url_route_matchPath (b k : String) (hb : b ≠ "") (hbs : '/' ∉ b.toList)
    (hk : '\n' ∉ k.toList) (h : Handler) (m : String) :
    (Handle "/api/buckets/{bucketName}/objects/{objectName:.*}/url" h m).matchPath
      (objectUrlPath b k) = true := by
  have hb' : b.toList ≠ [] := by
    intro hnil
    apply hb
    cases b with
    | mk cs => simp [String.toList] at hnil; simp [hnil]
  simp only [Route.matchPath, Handle, tpl_url, objectUrlPath_toList, Bool.not_false]
  exact matchPieces_url _ _ _ _ _ hb' (fun c hc h' => hbs (h' ▸ hc)) (fun c hc h' => hk (h' ▸ hc))

theorem get_route_matchPath (b k : String) (hb : b ≠ "") (hbs : '/' ∉ b.toList)
    (hk : '\n' ∉ k.toList) (h : Handler) (m : String) :
    (Handle "/api/buckets/{bucketName}/objects/{objectName:.*}" h m).matchPath
      (objectUrlPath b k) = true := by
  have hb' : b.toList ≠ [] := by
    intro hnil
    apply hb
    cases b with
    | mk cs => simp [String.toList] at hnil; simp [hnil]
  simp only [Route.matchPath, Handle, tpl_get, objectUrlPath_toList_get, Bool.not_false]
  refine matchPieces_url _ _ _ _ _ hb' (fun c hc h' => hbs (h' ▸ hc)) ?_
  intro c hc h'
  subst h'
  rw [List.mem_append] at hc
  rcases hc with hc | hc
  · exact hk hc
  · revert hc
    decide

theorem early_routes_noMatch (c : configuration) (b k : String) :
    (Handle "/" (.RedirectHandler "/buckets" StatusPermanentRedirect) MethodGet).matchPath
        (objectUrlPath b k) = false ∧
    (PathPrefixHandler "/static/" .StaticFileServer MethodGet).matchPath
        (objectUrlPath b k) = false ∧
    (Handle "/buckets" (.HandleBucketsView c.AllowDelete c.SharedBucketsPath) MethodGet).matchPath
        (objectUrlPath b k) = false ∧
    (PathPrefixHandler "/buckets/" (.HandleBucketView c.AllowDelete c.ListRecursive)
        MethodGet).matchPath (objectUrlPath b k) = false := by
  obtain ⟨rest, hrest⟩ := objectUrlPath_head b k
  have t1 : parseTemplate "/".toList (.raw []) = some [.literal "/".toList] := by decide
  have t2 : parseTemplate "/static/".toList (.raw []) = some [.literal "/static/".toList] := by
    decide
  have t3 : parseTemplate "/buckets".toList (.raw []) = some [.literal "/buckets".toList] := by
    decide
  have t4 : parseTemplate "/buckets/".toList (.raw []) = some [.literal "/buckets/".toList] := by
    decide
  simp only [Route.matchPath, Handle, PathPrefixHandler, t1, t2, t3, t4, hrest]
  simp [matchPieces, dropLiteral]

theorem RouterMatch_first (m p : String) (pre : List Route) (r : Route) (rs : List Route)
    (hpre : ∀ q ∈ pre, q.matchPath p = false ∨ q.matchMethod m = false)
    (hp : r.matchPath p = true) (hm : r.matchMethod m = true) (mm : Bool) :
    RouterMatch m p (pre ++ r :: rs) mm = .handler r.handler := by
  induction pre generalizing mm with
  | nil => simp [RouterMatch, Route.Match, hp, hm]
  | cons q qs ih =>
    have hq := hpre q (List.mem_cons_self _ _)
    have hqs : ∀ q' ∈ qs, q'.matchPath p = false ∨ q'.matchMethod m = false :=
      fun q' hq' => hpre q' (List.mem_cons_of_mem _ hq')
    rw [List.cons_append]
    unfold RouterMatch
    cases hres : q.Match m p with
    | matched =>
      unfold Route.Match at hres
      rcases hq with hq | hq <;> rw [hq] at hres <;> simp at hres
      split at hres <;> simp at hres
    | methodMismatch => exact ih hqs true
    | noMatch => exact ih hqs mm

theorem url_dispatch (c : configuration) (b k : String) (hb : b ≠ "") (hbs : '/' ∉ b.toList)
    (hk : '\n' ∉ k.toList)
    (hclean : cleanPath (objectUrlPath b k).toList = (objectUrlPath b k).toList) :
    ServeHTTP (buildRouter c) MethodGet (objectUrlPath b k) = .handler .HandleGenerateUrl := by
  obtain ⟨e1, e2, e3, e4⟩ := early_routes_noMatch c b k
  have hu := url_route_matchPath b k hb hbs hk .HandleGenerateUrl MethodGet
  have hm : (Handle "/api/buckets/{bucketName}/objects/{objectName:.*}/url" .HandleGenerateUrl
      MethodGet).matchMethod MethodGet = true := by decide
  unfold ServeHTTP
  simp only [hclean, ne_eq, not_true_eq_false, if_false]
  cases hd : c.AllowDelete with
  | false =>
    rw [buildRouter_deleteOff c hd]
    refine RouterMatch_first MethodGet _
      [_, _, _, _, _, _] _ [_] ?_ hu hm false
    intro q hq
    simp only [List.mem_cons, List.mem_singleton, List.not_mem_nil, or_false] at hq
    rcases hq with rfl | rfl | rfl | rfl | rfl | rfl
    · exact Or.inl e1
    · exact Or.inl e2
    · exact Or.inl (hd ▸ e3)
    · exact Or.inl (hd ▸ e4)
    · exact Or.inr (by decide)
    · exact Or.inr (by simp [Handle, Route.matchMethod, MethodGet, MethodPost])
  | true =>
    rw [buildRouter_deleteOn c hd]
    refine RouterMatch_first MethodGet _
      [_, _, _, _, _, _, _] _ [_, _] ?_ hu hm false
    intro q hq
    simp only [List.mem_cons, List.mem_singleton, List.not_mem_nil, or_false] at hq
    rcases hq with rfl | rfl | rfl | rfl | rfl | rfl | rfl
    · exact Or.inl e1
    · exact Or.inl e2
    · exact Or.inl (hd ▸ e3)
    · exact Or.inl (hd ▸ e4)
    · exact Or.inr (by decide)
    · exact Or.inr (by decide)
    · exact Or.inr (by simp [Handle, Route.matchMethod, MethodGet, MethodPost])

/-! ### The buckets view -/

theorem cut_none_iff (sep : Char) (l : List Char) : cut sep l = none ↔ sep ∉ l := by
  induction l with
  | nil => simp [cut]
  | cons c cs ih =>
    unfold cut
    by_cases h : c = sep
    · simp [h]
    · simp only [h, if_false]
      cases hc : cut sep cs with
      | none =>
        have := ih.mp hc
        simp [this, Ne.symm h]
      | some p =>
        have : ¬ sep ∉ cs := fun hn => by simp [ih.mpr hn] at hc
        simp at this
        simp [this]

theorem cut_some (sep : Char) (l before after : List Char) (h : cut sep l = some (before, after)) :
    l = before ++ sep :: after ∧ sep ∉ before := by
  induction l generalizing before with
  | nil => simp [cut] at h
  | cons c cs ih =>
    unfold cut at h
    by_cases hc : c = sep
    · simp [hc] at h
      obtain ⟨h1, h2⟩ := h
      subst h1 h2 hc
      simp
    · simp only [hc, if_false] at h
      cases hcs : cut sep cs with
      | none => simp [hcs] at h
      | some p =>
        obtain ⟨b, a⟩ := p
        simp [hcs] at h
        obtain ⟨h1, h2⟩ := h
        subst h1 h2
        obtain ⟨e1, e2⟩ := ih b hcs
        refine ⟨by rw [List.cons_append, ← e1], ?_⟩
        simp [e2, Ne.symm hc]

theorem SplitN_two (s : String) (hne : s ≠ "") :
    SplitN s '/' 2 =
      match cut '/' s.toList with
      | none => [s]
      | some (before, after) => [String.mk before, String.mk after] := by
  have hlen : len s ≠ 0 := fun h => hne ((len_eq_zero_iff s).mp h)
  have h2 : ¬ (2 > len s + 1) := by omega
  simp only [SplitN, h2, if_false, splitLoop]
  cases cut '/' s.toList with
  | none => simp [String.toList]
  | some p => simp [splitLoop]

theorem SplitN_noSlash (path : String) (hne : path ≠ "") (h : '/' ∉ path.toList) :
    SplitN path '/' 2 = [path] := by
  rw [SplitN_two path hne, (cut_none_iff '/' path.toList).mpr h]

theorem SplitN_slash (path : String) (hne : path ≠ "") (h : '/' ∈ path.toList) :
    ∃ b k, SplitN path '/' 2 = [b, k] ∧ b ++ "/" ++ k = path ∧ '/' ∉ b.toList := by
  rw [SplitN_two path hne]
  cases hc : cut '/' path.toList with
  | none => exact absurd h ((cut_none_iff '/' path.toList).mp hc)
  | some p =>
    obtain ⟨before, after⟩ := p
    obtain ⟨e1, e2⟩ := cut_some '/' path.toList before after hc
    refine ⟨String.mk before, String.mk after, rfl, ?_, e2⟩
    apply String.ext
    rw [String.data_append, String.data_append]
    simpa [String.toList] using e1.symm

theorem sharedBuckets_empty (s3 : S3) (Unmarshal : List UInt8 → Except GoError (List String))
    (buckets : List BucketInfo) :
    sharedBuckets s3 Unmarshal "" buckets = ([], some buckets) := by
  simp [sharedBuckets]

theorem sharedBuckets_noSlash (s3 : S3) (Unmarshal : List UInt8 → Except GoError (List String))
    (path : String) (buckets : List BucketInfo) (hne : path ≠ "") (h : '/' ∉ path.toList) :
    sharedBuckets s3 Unmarshal path buckets =
      ([.handleHTTPError
          (Errorf "error getting shared buckets object: Shared path is not valid")], none) := by
  simp only [sharedBuckets, hne, ne_eq, not_false_eq_true, if_true, SplitN_noSlash path hne h]

theorem sharedBuckets_split (s3 : S3) (Unmarshal : List UInt8 → Except GoError (List String))
    (path : String) (buckets : List BucketInfo) (hne : path ≠ "") (b k : String)
    (h : SplitN path '/' 2 = [b, k]) :
    sharedBuckets s3 Unmarshal path buckets =
      match s3.GetObject b k with
      | .error err =>
        ([.GetObject b k,
          .handleHTTPError (Errorf_w "error getting shared buckets object: " err)], none)
      | .ok object =>
        match object.ReadAll with
        | .error bErr =>
          ([.GetObject b k, .ReadAll,
            .handleHTTPError (Errorf_w "error getting shared buckets object: " bErr)], none)
        | .ok bs =>
          match Unmarshal bs with
          | .error err =>
            ([.GetObject b k, .ReadAll, .Unmarshal bs,
              .handleHTTPError (Errorf_w "error getting shared buckets object: " err)], none)
          | .ok additionalBuckets =>
            ([.GetObject b k, .ReadAll, .Unmarshal bs],
              some (appendBuckets buckets additionalBuckets)) := by
  simp only [sharedBuckets, hne, ne_eq, not_false_eq_true, if_true, h]

theorem appendBuckets_eq (buckets : List BucketInfo) (names : List String) :
    appendBuckets buckets names = buckets ++ names.map BucketInfo.ofName := by
  unfold appendBuckets
  induction names generalizing buckets with
  | nil => simp
  | cons n ns ih => simp [List.foldl, ih]

theorem time_defined_ofName (name : String) :
    time_defined (BucketInfo.ofName name).CreationDate = false := by
  simp [time_defined, BucketInfo.ofName, Time.IsZero, Time.sec, Time.nsec]

/-! ### Configuration parsing -/

theorem parse_example : parseConfiguration exampleViper = .ok exampleConfiguration := by rfl

theorem main_example : (main exampleEnv).isOk = true := by rfl

theorem GetString_SetDefault (v : Viper) (k key : String) (x : Value) (h : key ≠ k) :
    (v.SetDefault k x).GetString key = v.GetString key := by
  simp [Viper.GetString, Viper.SetDefault, h]

theorem GetBool_SetDefault (v : Viper) (k key : String) (x : Value) (h : key ≠ k) :
    (v.SetDefault k x).GetBool key = v.GetBool key := by
  simp [Viper.GetBool, Viper.SetDefault, h]

theorem credentialSettings_SetDefault (v : Viper) (x : Value) (useIam : Bool) :
    credentialSettings (v.SetDefault "endpoint" x) useIam = credentialSettings v useIam := by
  simp [credentialSettings, GetString_SetDefault]

theorem credentialSettings_iam (v : Viper) :
    credentialSettings v true = .ok (v.GetString "iam_endpoint", "", "") := by
  simp [credentialSettings]

theorem credentialSettings_static (v : Viper) :
    credentialSettings v false =
      if v.GetString "access_key_id" = "" then .error "please provide ACCESS_KEY_ID"
      else if v.GetString "secret_access_key" = "" then .error "please provide SECRET_ACCESS_KEY"
      else .ok ("", v.GetString "access_key_id", v.GetString "secret_access_key") := by
  simp [credentialSettings, len_eq_zero_iff]

/-- The result of `parseConfiguration` once the configuration file step is
past: it fails exactly when the credential settings do, and otherwise returns
their three values and the `use_iam` flag. -/
theorem parseConfiguration_credentials (v : Viper) (h : ∀ err, v.readInConfig ≠ .failed err) :
    (∀ msg, credentialSettings v (v.GetBool "use_iam") = .error msg →
      parseConfiguration v = .error msg) ∧
    (∀ i a s, credentialSettings v (v.GetBool "use_iam") = .ok (i, a, s) →
      ∃ c, parseConfiguration v = .ok c ∧ c.UseIam = v.GetBool "use_iam" ∧
        c.IamEndpoint = i ∧ c.AccessKeyID = a ∧ c.SecretAccessKey = s) := by
  have hb : (v.SetDefault "endpoint" (.str "s3.amazonaws.com")).GetBool "use_iam" =
      v.GetBool "use_iam" := GetBool_SetDefault v _ _ _ (by decide)
  constructor
  · intro msg hc
    unfold parseConfiguration
    split
    · rename_i err he
      exact absurd he (h err)
    · dsimp only
      rw [hb, credentialSettings_SetDefault, hc]
  · intro i a s hc
    unfold parseConfiguration
    split
    · rename_i err he
      exact absurd he (h err)
    · dsimp only
      rw [hb, credentialSettings_SetDefault, hc]
      exact ⟨_, rfl, rfl, rfl, rfl, rfl⟩

/-! ### Start-up outcomes -/

theorem selectSignatureType_error_iff (s : String) :
    (∃ msg, selectSignatureType s = .error msg) ↔ s ∉ acceptedSignatureTypes := by
  unfold selectSignatureType acceptedSignatureTypes
  simp only [List.mem_cons, List.mem_singleton, List.not_mem_nil, or_false, not_or]
  constructor
  · rintro ⟨msg, h⟩
    split at h
    · simp at h
    · split at h
      · simp at h
      · split at h
        · simp at h
        · split at h
          · simp at h
          · exact ⟨by assumption, by assumption, by assumption, by assumption⟩
  · rintro ⟨h1, h2, h3, h4⟩
    exact ⟨"Invalid SIGNATURE_TYPE: " ++ s, by simp [h1, h2, h3, h4]⟩

theorem buildCredentials_error_iff (c : configuration) (h : c.UseIam = false) :
    (∃ msg, buildCredentials c = .error msg) ↔ c.SignatureType ∉ acceptedSignatureTypes := by
  rw [← selectSignatureType_error_iff]
  simp only [buildCredentials, h, Bool.false_eq_true, if_false]
  cases selectSignatureType c.SignatureType <;> simp

theorem HandleBucketsView_getObject (s3 : S3) (templates : Templates)
    (Unmarshal : List UInt8 → Except GoError (List String))
    (allowDelete : Bool) (sharedBucketsPath : String) (buckets : List BucketInfo)
    (b k : String) (hne : sharedBucketsPath ≠ "") (hlist : s3.ListBuckets = .ok buckets)
    (hsp : SplitN sharedBucketsPath '/' 2 = [b, k]) :
    ∃ rest,
      HandleBucketsView s3 templates Unmarshal allowDelete sharedBucketsPath =
        .ListBuckets :: .GetObject b k :: rest ∧
      (∀ e ∈ rest, e.isGetObject = false) ∧
      Event.handleHTTPError
        (Errorf "error getting shared buckets object: Shared path is not valid") ∉ rest := by
  simp only [HandleBucketsView, hlist,
    sharedBuckets_split s3 Unmarshal _ buckets hne b k hsp]
  cases s3.GetObject b k with
  | error e =>
    exact ⟨_, rfl, by simp [Event.isGetObject], by simp [Errorf, Errorf_w]⟩
  | ok object =>
    dsimp only
    cases object.ReadAll with
    | error e =>
      exact ⟨_, rfl, by simp [Event.isGetObject], by simp [Errorf, Errorf_w]⟩
    | ok bs =>
      dsimp only
      cases Unmarshal bs with
      | error e =>
        exact ⟨_, rfl, by simp [Event.isGetObject], by simp [Errorf, Errorf_w]⟩
      | ok names =>
        dsimp only [render]
        cases templates.ParseFS ["layout.html.tmpl", "buckets.html.tmpl"] <;>
          cases templates.ExecuteTemplate "layout"
            { Buckets := appendBuckets buckets names, AllowDelete := allowDelete } <;>
          exact ⟨_, rfl, by simp [Event.isGetObject], by simp [Errorf, Errorf_w]⟩

theorem startServer_error_iff (env : Env) (c : configuration)
    (ht : ∃ t, buildTransport env c = .ok t)
    (hn : ∀ creds t, buildCredentials c = .ok creds → buildTransport env c = .ok t →
      env.minioNew c.Endpoint
        { Secure := c.UseSSL
          Creds := creds
          Region := if c.Region ≠ "" then c.Region else ""
          Transport := t } = none) :
    (∃ msg, startServer env c = .error msg) ↔ ∃ msg, buildCredentials c = .error msg := by
  obtain ⟨t, ht⟩ := ht
  simp only [startServer, fsSub_template, fsSub_static, ht]
  cases hc : buildCredentials c with
  | error msg => simp
  | ok creds =>
    simp only [hn creds t hc ht]
    simp

theorem parse_unreadableCa :
    parseConfiguration unreadableCaViper = .ok unreadableCaConfiguration := by rfl

/-! ### Dispatch of one request per endpoint -/

theorem dispatch_buckets (c : configuration) :
    ServeHTTP (buildRouter c) "GET" "/buckets" =
      .handler (.HandleBucketsView c.AllowDelete c.SharedBucketsPath) := by
  have hclean : cleanPath "/buckets".toList = "/buckets".toList := by decide
  unfold ServeHTTP
  simp only [hclean, ne_eq, not_true_eq_false, if_false]
  rcases Bool.eq_false_or_eq_true c.AllowDelete with hd | hd
  · rw [buildRouter_deleteOn c hd]
    refine RouterMatch_first "GET" "/buckets" [_, _] _ _ ?_ ?_ ?_ false
    · intro q hq
      fin_cases hq <;>
        (left; simp only [Route.matchPath, Handle, PathPrefixHandler]; decide)
    · simp only [Route.matchPath, Handle, PathPrefixHandler]; decide
    · simp only [Route.matchMethod, Handle, PathPrefixHandler, MethodGet]; decide
  · rw [buildRouter_deleteOff c hd]
    refine RouterMatch_first "GET" "/buckets" [_, _] _ _ ?_ ?_ ?_ false
    · intro q hq
      fin_cases hq <;>
        (left; simp only [Route.matchPath, Handle, PathPrefixHandler]; decide)
    · simp only [Route.matchPath, Handle, PathPrefixHandler]; decide
    · simp only [Route.matchMethod, Handle, PathPrefixHandler, MethodGet]; decide

theorem dispatch_bucket_view (c : configuration) :
    ServeHTTP (buildRouter c) "GET" "/buckets/photos" =
      .handler (.HandleBucketView c.AllowDelete c.ListRecursive) := by
  have hclean : cleanPath "/buckets/photos".toList = "/buckets/photos".toList := by decide
  unfold ServeHTTP
  simp only [hclean, ne_eq, not_true_eq_false, if_false]
  rcases Bool.eq_false_or_eq_true c.AllowDelete with hd | hd
  · rw [buildRouter_deleteOn c hd]
    refine RouterMatch_first "GET" "/buckets/photos" [_, _, _] _ _ ?_ ?_ ?_ false
    · intro q hq
      fin_cases hq <;>
        (left; simp only [Route.matchPath, Handle, PathPrefixHandler]; decide)
    · simp only [Route.matchPath, Handle, PathPrefixHandler]; decide
    · simp only [Route.matchMethod, Handle, PathPrefixHandler, MethodGet]; decide
  · rw [buildRouter_deleteOff c hd]
    refine RouterMatch_first "GET" "/buckets/photos" [_, _, _] _ _ ?_ ?_ ?_ false
    · intro q hq
      fin_cases hq <;>
        (left; simp only [Route.matchPath, Handle, PathPrefixHandler]; decide)
    · simp only [Route.matchPath, Handle, PathPrefixHandler]; decide
    · simp only [Route.matchMethod, Handle, PathPrefixHandler, MethodGet]; decide

theorem dispatch_create_bucket (c : configuration) :
    ServeHTTP (buildRouter c) "POST" "/api/buckets" = .handler .HandleCreateBucket := by
  have hclean : cleanPath "/api/buckets".toList = "/api/buckets".toList := by decide
  unfold ServeHTTP
  simp only [hclean, ne_eq, not_true_eq_false, if_false]
  rcases Bool.eq_false_or_eq_true c.AllowDelete with hd | hd
  · rw [buildRouter_deleteOn c hd]
    refine RouterMatch_first "POST" "/api/buckets" [_, _, _, _] _ _ ?_ ?_ ?_ false
    · intro q hq
      fin_cases hq <;>
        (left; simp only [Route.matchPath, Handle, PathPrefixHandler]; decide)
    · simp only [Route.matchPath, Handle, PathPrefixHandler]; decide
    · simp only [Route.matchMethod, Handle, PathPrefixHandler, MethodPost]; decide
  · rw [buildRouter_deleteOff c hd]
    refine RouterMatch_first "POST" "/api/buckets" [_, _, _, _] _ _ ?_ ?_ ?_ false
    · intro q hq
      fin_cases hq <;>
        (left; simp only [Route.matchPath, Handle, PathPrefixHandler]; decide)
    · simp only [Route.matchPath, Handle, PathPrefixHandler]; decide
    · simp only [Route.matchMethod, Handle, PathPrefixHandler, MethodPost]; decide

theorem dispatch_create_object (c : configuration) :
    ServeHTTP (buildRouter c) "POST" "/api/buckets/photos/objects" =
      .handler (.HandleCreateObject { Typ := c.SseType, Key := c.SseKey }) := by
  have hclean : cleanPath "/api/buckets/photos/objects".toList =
      "/api/buckets/photos/objects".toList := by decide
  unfold ServeHTTP
  simp only [hclean, ne_eq, not_true_eq_false, if_false]
  rcases Bool.eq_false_or_eq_true c.AllowDelete with hd | hd
  · rw [buildRouter_deleteOn c hd]
    refine RouterMatch_first "POST" "/api/buckets/photos/objects" [_, _, _, _, _, _] _ _
      ?_ ?_ ?_ false
    · intro q hq
      fin_cases hq <;>
        (left; simp only [Route.matchPath, Handle, PathPrefixHandler]; decide)
    · simp only [Route.matchPath, Handle, PathPrefixHandler]; decide
    · simp only [Route.matchMethod, Handle, PathPrefixHandler, MethodPost]; decide
  · rw [buildRouter_deleteOff c hd]
    refine RouterMatch_first "POST" "/api/buckets/photos/objects" [_, _, _, _, _] _ _
      ?_ ?_ ?_ false
    · intro q hq
      fin_cases hq <;>
        (left; simp only [Route.matchPath, Handle, PathPrefixHandler]; decide)
    · simp only [Route.matchPath, Handle, PathPrefixHandler]; decide
    · simp only [Route.matchMethod, Handle, PathPrefixHandler, MethodPost]; decide

theorem dispatch_get_object (c : configuration) :
    ServeHTTP (buildRouter c) "GET" "/api/buckets/photos/objects/2024/cat.png" =
      .handler (.HandleGetObject c.ForceDownload) := by
  have hclean : cleanPath "/api/buckets/photos/objects/2024/cat.png".toList =
      "/api/buckets/photos/objects/2024/cat.png".toList := by decide
  unfold ServeHTTP
  simp only [hclean, ne_eq, not_true_eq_false, if_false]
  rcases Bool.eq_false_or_eq_true c.AllowDelete with hd | hd
  · rw [buildRouter_deleteOn c hd]
    refine RouterMatch_first "GET" "/api/buckets/photos/objects/2024/cat.png"
      [_, _, _, _, _, _, _, _] _ _ ?_ ?_ ?_ false
    · intro q hq
      fin_cases hq <;>
        (left; simp only [Route.matchPath, Handle, PathPrefixHandler]; decide)
    · simp only [Route.matchPath, Handle, PathPrefixHandler]; decide
    · simp only [Route.matchMethod, Handle, PathPrefixHandler, MethodGet]; decide
  · rw [buildRouter_deleteOff c hd]
    refine RouterMatch_first "GET" "/api/buckets/photos/objects/2024/cat.png"
      [_, _, _, _, _, _, _] _ _ ?_ ?_ ?_ false
    · intro q hq
      fin_cases hq <;>
        (left; simp only [Route.matchPath, Handle, PathPrefixHandler]; decide)
    · simp only [Route.matchPath, Handle, PathPrefixHandler]; decide
    · simp only [Route.matchMethod, Handle, PathPrefixHandler, MethodGet]; decide

theorem routes_registered (c : configuration) :
    registeredExactly (buildRouter c)
      (Handle "/buckets" (.HandleBucketsView c.AllowDelete c.SharedBucketsPath) MethodGet) ∧
    registeredExactly (buildRouter c)
      (PathPrefixHandler "/buckets/" (.HandleBucketView c.AllowDelete c.ListRecursive)
        MethodGet) ∧
    registeredExactly (buildRouter c) (Handle "/api/buckets" .HandleCreateBucket MethodPost) ∧
    registeredExactly (buildRouter c)
      (Handle "/api/buckets/{bucketName}/objects"
        (.HandleCreateObject { Typ := c.SseType, Key := c.SseKey }) MethodPost) ∧
    registeredExactly (buildRouter c)
      (Handle "/api/buckets/{bucketName}/objects/{objectName:.*}"
        (.HandleGetObject c.ForceDownload) MethodGet) ∧
    registeredExactly (buildRouter c)
      (Handle "/api/buckets/{bucketName}/objects/{objectName:.*}/url" .HandleGenerateUrl
        MethodGet) ∧
    (∀ env opts srv, startServer env c = .ok (opts, srv) → srv.Handler = buildRouter c) := by
  have hmain : ∀ env opts srv, startServer env c = .ok (opts, srv) → srv.Handler = buildRouter c :=
    fun env opts srv h => (startServer_creds env c opts srv h).2.1
  refine ⟨?_, ?_, ?_, ?_, ?_, ?_, hmain⟩ <;>
  · rcases Bool.eq_false_or_eq_true c.AllowDelete with hd | hd
    · rw [buildRouter_deleteOn c hd]
      refine ⟨by simp, ?_⟩
      intro r hr hcond
      simp only [List.mem_cons, List.mem_singleton, List.not_mem_nil, or_false] at hr
      rcases hr with rfl | rfl | rfl | rfl | rfl | rfl | rfl | rfl | rfl | rfl <;>
        first
        | rfl
        | (exfalso
           simp [Handle, PathPrefixHandler, MethodGet, MethodPost, MethodDelete] at hcond)
    · rw [buildRouter_deleteOff c hd]
      refine ⟨by simp, ?_⟩
      intro r hr hcond
      simp only [List.mem_cons, List.mem_singleton, List.not_mem_nil, or_false] at hr
      rcases hr with rfl | rfl | rfl | rfl | rfl | rfl | rfl | rfl <;>
        first
        | rfl
        | (exfalso
           simp [Handle, PathPrefixHandler, MethodGet, MethodPost, MethodDelete] at hcond)

theorem RouterMatch_handler_mem (m p : String) (routes : List Route) (mismatch : Bool)
    (h : Handler) (hres : RouterMatch m p routes mismatch = .handler h) :
    ∃ r ∈ routes, r.handler = h ∧ r.matchMethod m = true ∧ r.matchPath p = true := by
  induction routes generalizing mismatch with
  | nil =>
    unfold RouterMatch at hres
    split at hres <;> simp at hres
  | cons r rs ih =>
    unfold RouterMatch at hres
    cases hm : r.Match m p with
    | matched =>
      rw [hm] at hres
      simp only [Dispatch.handler.injEq] at hres
      unfold Route.Match at hm
      by_cases hp : r.matchPath p = true
      · by_cases hmm : r.matchMethod m = true
        · exact ⟨r, List.mem_cons_self _ _, hres, hmm, hp⟩
        · simp [hp, hmm] at hm
      · simp [hp] at hm
    | methodMismatch =>
      rw [hm] at hres
      obtain ⟨q, hq, hrest⟩ := ih true hres
      exact ⟨q, List.mem_cons_of_mem _ hq, hrest⟩
    | noMatch =>
      rw [hm] at hres
      obtain ⟨q, hq, hrest⟩ := ih mismatch hres
      exact ⟨q, List.mem_cons_of_mem _ hq, hrest⟩

theorem servedOnlyBy_of_registered (routes : List Route) (R : Route) (method : String)
    (hreg : registeredExactly routes R) (hmeth : R.methods = [method]) :
    servedOnlyBy routes method R.handler := by
  intro m p hres
  unfold ServeHTTP at hres
  dsimp only at hres
  split at hres
  · simp at hres
  · obtain ⟨r, hr, hh, hm, -⟩ := RouterMatch_handler_mem m p routes false R.handler hres
    have hrR : r = R := hreg.2 r hr (Or.inl hh)
    subst hrR
    simpa [Route.matchMethod, hmeth] using hm

/-! ## The claims -/

/-- C1: the route table built by `main` has a route that accepts DELETE if and
only if `AllowDelete` is true. With `AllowDelete = false` no registered route
accepts DELETE, so no DELETE request, whatever its path, reaches a handler; with
`AllowDelete = true` the delete-bucket and the delete-object routes are both
registered. The table is the handler of the server `main` starts. -/
theorem C1_delete_routes_iff_allowDelete (c : configuration) :
    ((∃ r ∈ buildRouter c, r.matchMethod MethodDelete = true) ↔ c.AllowDelete = true) ∧
    (c.AllowDelete = false →
      (∀ r ∈ buildRouter c, r.matchMethod MethodDelete = false) ∧
      ∀ path h, ServeHTTP (buildRouter c) MethodDelete path ≠ .handler h) ∧
    (c.AllowDelete = true →
      Handle "/api/buckets/{bucketName}" .HandleDeleteBucket MethodDelete ∈ buildRouter c ∧
      Handle "/api/buckets/{bucketName}/objects/{objectName:.*}" .HandleDeleteObject
        MethodDelete ∈ buildRouter c) ∧
    (∀ env opts srv, startServer env c = .ok (opts, srv) → srv.Handler = buildRouter c) := by
  refine ⟨?_, ?_, ?_, ?_⟩
  · cases hd : c.AllowDelete with
    | false =>
      have hno := deleteOff_no_delete_route c hd
      constructor
      · rintro ⟨r, hr, hm⟩
        rw [hno r hr] at hm
        exact absurd hm (by simp)
      · intro h
        exact absurd h (by simp)
    | true =>
      refine ⟨fun _ => rfl, fun _ => ?_⟩
      refine ⟨Handle "/api/buckets/{bucketName}" .HandleDeleteBucket MethodDelete, ?_, by decide⟩
      rw [buildRouter_deleteOn c hd]
      simp
  · intro hd
    exact ⟨deleteOff_no_delete_route c hd,
      fun path h => ServeHTTP_no_method MethodDelete path _ (deleteOff_no_delete_route c hd) h⟩
  · intro hd
    rw [buildRouter_deleteOn c hd]
    simp
  · intro env opts srv h
    exact (startServer_creds env c opts srv h).2.1

/-- C1 at a configuration with deletion off: a DELETE of a bucket does not
reach the delete-bucket handler. -/
theorem C1_delete_routes_witness :
    ServeHTTP (buildRouter readOnlyConfiguration) MethodDelete "/api/buckets/b" ≠
      .handler .HandleDeleteBucket :=
  ((C1_delete_routes_iff_allowDelete readOnlyConfiguration).2.1 rfl).2 "/api/buckets/b" .HandleDeleteBucket

/-- C2: for every configuration the route table built by `main` registers each
non-optional endpoint with exactly the stated method: GET `/buckets`, GET under
`/buckets/`, POST `/api/buckets`, POST `/api/buckets/{bucketName}/objects`,
GET `/api/buckets/{bucketName}/objects/{objectName}` and GET
`/api/buckets/{bucketName}/objects/{objectName}/url`. For each endpoint the
route with that template, handler and one-element method list is in the table,
it is the only route with its handler and the only route on its template that
does not take DELETE; the router hands a request to the handler only when the
request has the stated method, and does so for a request with that method. -/
theorem C2_fixed_routes_registered (c : configuration) :
    (registeredExactly (buildRouter c)
        { template := "/buckets", pathPrefixed := false,
          handler := .HandleBucketsView c.AllowDelete c.SharedBucketsPath, methods := ["GET"] } ∧
      servedOnlyBy (buildRouter c) "GET" (.HandleBucketsView c.AllowDelete c.SharedBucketsPath) ∧
      ServeHTTP (buildRouter c) "GET" "/buckets" =
        .handler (.HandleBucketsView c.AllowDelete c.SharedBucketsPath)) ∧
    (registeredExactly (buildRouter c)
        { template := "/buckets/", pathPrefixed := true,
          handler := .HandleBucketView c.AllowDelete c.ListRecursive, methods := ["GET"] } ∧
      servedOnlyBy (buildRouter c) "GET" (.HandleBucketView c.AllowDelete c.ListRecursive) ∧
      ServeHTTP (buildRouter c) "GET" "/buckets/photos" =
        .handler (.HandleBucketView c.AllowDelete c.ListRecursive)) ∧
    (registeredExactly (buildRouter c)
        { template := "/api/buckets", pathPrefixed := false,
          handler := .HandleCreateBucket, methods := ["POST"] } ∧
      servedOnlyBy (buildRouter c) "POST" .HandleCreateBucket ∧
      ServeHTTP (buildRouter c) "POST" "/api/buckets" = .handler .HandleCreateBucket) ∧
    (registeredExactly (buildRouter c)
        { template := "/api/buckets/{bucketName}/objects", pathPrefixed := false,
          handler := .HandleCreateObject { Typ := c.SseType, Key := c.SseKey },
          methods := ["POST"] } ∧
      servedOnlyBy (buildRouter c) "POST"
        (.HandleCreateObject { Typ := c.SseType, Key := c.SseKey }) ∧
      ServeHTTP (buildRouter c) "POST" "/api/buckets/photos/objects" =
        .handler (.HandleCreateObject { Typ := c.SseType, Key := c.SseKey })) ∧
    (registeredExactly (buildRouter c)
        { template := "/api/buckets/{bucketName}/objects/{objectName:.*}", pathPrefixed := false,
          handler := .HandleGetObject c.ForceDownload, methods := ["GET"] } ∧
      servedOnlyBy (buildRouter c) "GET" (.HandleGetObject c.ForceDownload) ∧
      ServeHTTP (buildRouter c) "GET" "/api/buckets/photos/objects/2024/cat.png" =
        .handler (.HandleGetObject c.ForceDownload)) ∧
    (registeredExactly (buildRouter c)
        { template := "/api/buckets/{bucketName}/objects/{objectName:.*}/url",
          pathPrefixed := false, handler := .HandleGenerateUrl, methods := ["GET"] } ∧
      servedOnlyBy (buildRouter c) "GET" .HandleGenerateUrl ∧
      ServeHTTP (buildRouter c) "GET" "/api/buckets/photos/objects/2024/cat.png/url" =
        .handler .HandleGenerateUrl) ∧
    (∀ env opts srv, startServer env c = .ok (opts, srv) → srv.Handler = buildRouter c) := by
  obtain ⟨r1, r2, r3, r4, r5, r6, hmain⟩ := routes_registered c
  have hurl : ServeHTTP (buildRouter c) "GET" "/api/buckets/photos/objects/2024/cat.png/url" =
      .handler .HandleGenerateUrl :=
    url_dispatch c "photos" "2024/cat.png" (by decide) (by decide) (by decide) (by decide)
  exact ⟨⟨r1, servedOnlyBy_of_registered _ _ "GET" r1 rfl, dispatch_buckets c⟩,
    ⟨r2, servedOnlyBy_of_registered _ _ "GET" r2 rfl, dispatch_bucket_view c⟩,
    ⟨r3, servedOnlyBy_of_registered _ _ "POST" r3 rfl, dispatch_create_bucket c⟩,
    ⟨r4, servedOnlyBy_of_registered _ _ "POST" r4 rfl, dispatch_create_object c⟩,
    ⟨r5, servedOnlyBy_of_registered _ _ "GET" r5 rfl, dispatch_get_object c⟩,
    ⟨r6, servedOnlyBy_of_registered _ _ "GET" r6 rfl, hurl⟩, hmain⟩

/-- C3 (amended): for every request, every `sharedBucketsPath` and every
behaviour of the S3 client, `HandleBucketsView` performs at most two upstream S3
calls before it writes its response: exactly one `ListBuckets` and at most one
`GetObject`. No S3 call follows the first response event, and with an empty
`sharedBucketsPath` the count is exactly one. -/
theorem C3_at_most_two_upstream_calls (s3 : S3) (templates : Templates)
    (Unmarshal : List UInt8 → Except GoError (List String))
    (allowDelete : Bool) (sharedBucketsPath : String) :
    s3CallsBeforeResponse (HandleBucketsView s3 templates Unmarshal allowDelete sharedBucketsPath) ≤ 2 ∧
    s3CallsBeforeResponse (HandleBucketsView s3 templates Unmarshal allowDelete sharedBucketsPath) =
      s3Calls (HandleBucketsView s3 templates Unmarshal allowDelete sharedBucketsPath) ∧
    (HandleBucketsView s3 templates Unmarshal allowDelete sharedBucketsPath).count .ListBuckets = 1 ∧
    ((HandleBucketsView s3 templates Unmarshal allowDelete sharedBucketsPath).filter
      Event.isGetObject).length ≤ 1 ∧
    (sharedBucketsPath = "" →
      s3Calls (HandleBucketsView s3 templates Unmarshal allowDelete sharedBucketsPath) = 1) := by
  cases hl : s3.ListBuckets with
  | error err =>
    simp [HandleBucketsView, hl, s3CallsBeforeResponse, s3Calls, Event.isS3Call,
      Event.isResponse, Event.isGetObject]
  | ok buckets =>
    simp only [HandleBucketsView, hl]
    by_cases hp : sharedBucketsPath = ""
    · subst hp
      simp only [sharedBuckets_empty, render]
      cases templates.ParseFS ["layout.html.tmpl", "buckets.html.tmpl"] <;>
        cases templates.ExecuteTemplate "layout" { Buckets := buckets, AllowDelete := allowDelete } <;>
        simp [s3CallsBeforeResponse, s3Calls, Event.isS3Call, Event.isResponse, Event.isGetObject]
    · by_cases hs : '/' ∈ sharedBucketsPath.toList
      · obtain ⟨b, k, hsp, -, -⟩ := SplitN_slash sharedBucketsPath hp hs
        rw [sharedBuckets_split s3 Unmarshal sharedBucketsPath buckets hp b k hsp]
        cases s3.GetObject b k with
        | error e =>
          simp [hp, s3CallsBeforeResponse, s3Calls, Event.isS3Call, Event.isResponse,
            Event.isGetObject]
        | ok object =>
          dsimp only
          cases object.ReadAll with
          | error e =>
            simp [hp, s3CallsBeforeResponse, s3Calls, Event.isS3Call, Event.isResponse,
              Event.isGetObject]
          | ok bs =>
            dsimp only
            cases Unmarshal bs with
            | error e =>
              simp [hp, s3CallsBeforeResponse, s3Calls, Event.isS3Call, Event.isResponse,
                Event.isGetObject]
            | ok names =>
              simp only [render]
              cases templates.ParseFS ["layout.html.tmpl", "buckets.html.tmpl"] <;>
                cases templates.ExecuteTemplate "layout"
                  { Buckets := appendBuckets buckets names, AllowDelete := allowDelete } <;>
                simp [hp, s3CallsBeforeResponse, s3Calls, Event.isS3Call, Event.isResponse,
                  Event.isGetObject]
      · rw [sharedBuckets_noSlash s3 Unmarshal sharedBucketsPath buckets hp hs]
        simp [hp, s3CallsBeforeResponse, s3Calls, Event.isS3Call, Event.isResponse,
          Event.isGetObject]

/-- C3 as stated fails: with a shared path and a working client the handler
calls `ListBuckets` and then `GetObject`, two upstream calls before the page is
rendered. -/
theorem C3_counterexample_two_upstream_calls :
    s3CallsBeforeResponse
        (HandleBucketsView exampleS3 exampleTemplates exampleUnmarshal true
          "config/shared.yaml") = 2 ∧
      ¬ s3CallsBeforeResponse
        (HandleBucketsView exampleS3 exampleTemplates exampleUnmarshal true
          "config/shared.yaml") ≤ 1 := by
  decide

/-- C4: when `ListBuckets`, `GetObject`, reading the shared object or YAML
decoding fails, `HandleBucketsView` reports exactly one error through
`handleHTTPError`; the error wraps the upstream error behind the prefix
`error listing buckets: ` (for `ListBuckets`) or
`error getting shared buckets object: ` (for the other three); the report is
the last event of the run, so no later step runs, no template is parsed or
executed, and no call occurs twice. -/
theorem C4_upstream_failure_reported_once (s3 : S3) (templates : Templates)
    (Unmarshal : List UInt8 → Except GoError (List String))
    (allowDelete : Bool) (sharedBucketsPath : String) :
    (∀ err, s3.ListBuckets = .error err →
      HandleBucketsView s3 templates Unmarshal allowDelete sharedBucketsPath =
        [.ListBuckets, .handleHTTPError (Errorf_w "error listing buckets: " err)] ∧
      failsWith (HandleBucketsView s3 templates Unmarshal allowDelete sharedBucketsPath)
        (Errorf_w "error listing buckets: " err)) ∧
    (∀ buckets bucketName path err, s3.ListBuckets = .ok buckets → sharedBucketsPath ≠ "" →
      SplitN sharedBucketsPath '/' 2 = [bucketName, path] →
      s3.GetObject bucketName path = .error err →
      HandleBucketsView s3 templates Unmarshal allowDelete sharedBucketsPath =
        [.ListBuckets, .GetObject bucketName path,
          .handleHTTPError (Errorf_w "error getting shared buckets object: " err)] ∧
      failsWith (HandleBucketsView s3 templates Unmarshal allowDelete sharedBucketsPath)
        (Errorf_w "error getting shared buckets object: " err)) ∧
    (∀ buckets bucketName path object err, s3.ListBuckets = .ok buckets →
      sharedBucketsPath ≠ "" → SplitN sharedBucketsPath '/' 2 = [bucketName, path] →
      s3.GetObject bucketName path = .ok object → object.ReadAll = .error err →
      HandleBucketsView s3 templates Unmarshal allowDelete sharedBucketsPath =
        [.ListBuckets, .GetObject bucketName path, .ReadAll,
          .handleHTTPError (Errorf_w "error getting shared buckets object: " err)] ∧
      failsWith (HandleBucketsView s3 templates Unmarshal allowDelete sharedBucketsPath)
        (Errorf_w "error getting shared buckets object: " err)) ∧
    (∀ buckets bucketName path object bs err, s3.ListBuckets = .ok buckets →
      sharedBucketsPath ≠ "" → SplitN sharedBucketsPath '/' 2 = [bucketName, path] →
      s3.GetObject bucketName path = .ok object → object.ReadAll = .ok bs →
      Unmarshal bs = .error err →
      HandleBucketsView s3 templates Unmarshal allowDelete sharedBucketsPath =
        [.ListBuckets, .GetObject bucketName path, .ReadAll, .Unmarshal bs,
          .handleHTTPError (Errorf_w "error getting shared buckets object: " err)] ∧
      failsWith (HandleBucketsView s3 templates Unmarshal allowDelete sharedBucketsPath)
        (Errorf_w "error getting shared buckets object: " err)) ∧
    (∀ context err, (Errorf_w context err).Error = context ++ err.Error ∧
      (Errorf_w context err).Unwrap = some err) := by
  refine ⟨?_, ?_, ?_, ?_, ?_⟩
  · intro err hl
    have hrun : HandleBucketsView s3 templates Unmarshal allowDelete sharedBucketsPath =
        [.ListBuckets, .handleHTTPError (Errorf_w "error listing buckets: " err)] := by
      simp only [HandleBucketsView, hl]
    refine ⟨hrun, ?_⟩
    rw [hrun]
    simp [failsWith, Event.isError, Event.isTemplate]
  · intro buckets b k err hl hne hsp hg
    have hrun : HandleBucketsView s3 templates Unmarshal allowDelete sharedBucketsPath =
        [.ListBuckets, .GetObject b k,
          .handleHTTPError (Errorf_w "error getting shared buckets object: " err)] := by
      simp only [HandleBucketsView, hl, sharedBuckets_split s3 Unmarshal _ buckets hne b k hsp, hg]
    refine ⟨hrun, ?_⟩
    rw [hrun]
    simp [failsWith, Event.isError, Event.isTemplate]
  · intro buckets b k object err hl hne hsp hg hr
    have hrun : HandleBucketsView s3 templates Unmarshal allowDelete sharedBucketsPath =
        [.ListBuckets, .GetObject b k, .ReadAll,
          .handleHTTPError (Errorf_w "error getting shared buckets object: " err)] := by
      simp only [HandleBucketsView, hl, sharedBuckets_split s3 Unmarshal _ buckets hne b k hsp, hg,
        hr]
    refine ⟨hrun, ?_⟩
    rw [hrun]
    simp [failsWith, Event.isError, Event.isTemplate]
  · intro buckets b k object bs err hl hne hsp hg hr hu
    have hrun : HandleBucketsView s3 templates Unmarshal allowDelete sharedBucketsPath =
        [.ListBuckets, .GetObject b k, .ReadAll, .Unmarshal bs,
          .handleHTTPError (Errorf_w "error getting shared buckets object: " err)] := by
      simp only [HandleBucketsView, hl, sharedBuckets_split s3 Unmarshal _ buckets hne b k hsp, hg,
        hr, hu]
    refine ⟨hrun, ?_⟩
    rw [hrun]
    simp [failsWith, Event.isError, Event.isTemplate]
  · intro context err
    simp [Errorf_w, GoError.Error, GoError.Unwrap]

/-- C4 at a client whose `ListBuckets` fails. -/
theorem C4_upstream_failure_witness :
    HandleBucketsView failingS3 exampleTemplates exampleUnmarshal true "config/shared.yaml" =
      [.ListBuckets,
        .handleHTTPError (Errorf_w "error listing buckets: " (.plain "connection refused"))] :=
  ((C4_upstream_failure_reported_once failingS3 exampleTemplates exampleUnmarshal true
    "config/shared.yaml").1 (.plain "connection refused") rfl).1

/-- C5: with `UseIam = false`, `main` builds static credentials whose signature
type follows the `SignatureType` string: `V2`, `V4`, `V4Streaming` and
`Anonymous` give the constants of the same name, and every other string (the
empty string and `v4` among them) aborts start-up with
`Invalid SIGNATURE_TYPE: ` followed by the string. The mapping is injective on
the four accepted strings. -/
theorem C5_signature_type_selection (c : configuration) (h : c.UseIam = false) :
    (c.SignatureType = "V2" →
      buildCredentials c = .ok (.NewStatic c.AccessKeyID c.SecretAccessKey "" .SignatureV2)) ∧
    (c.SignatureType = "V4" →
      buildCredentials c = .ok (.NewStatic c.AccessKeyID c.SecretAccessKey "" .SignatureV4)) ∧
    (c.SignatureType = "V4Streaming" →
      buildCredentials c =
        .ok (.NewStatic c.AccessKeyID c.SecretAccessKey "" .SignatureV4Streaming)) ∧
    (c.SignatureType = "Anonymous" →
      buildCredentials c =
        .ok (.NewStatic c.AccessKeyID c.SecretAccessKey "" .SignatureAnonymous)) ∧
    (c.SignatureType ∉ acceptedSignatureTypes →
      ∀ env, startServer env c = .error ("Invalid SIGNATURE_TYPE: " ++ c.SignatureType)) ∧
    (∀ env, startServer env { c with SignatureType := "" } = .error "Invalid SIGNATURE_TYPE: ") ∧
    (∀ env, startServer env { c with SignatureType := "v4" } =
      .error "Invalid SIGNATURE_TYPE: v4") ∧
    (∀ env opts srv, startServer env c = .ok (opts, srv) →
      buildCredentials c = .ok opts.Creds ∧ c.SignatureType ∈ acceptedSignatureTypes) ∧
    (∀ s ∈ acceptedSignatureTypes, ∀ t ∈ acceptedSignatureTypes,
      selectSignatureType s = selectSignatureType t → s = t) := by
  refine ⟨?_, ?_, ?_, ?_, ?_, ?_, ?_, ?_, ?_⟩
  · intro hs
    simp [buildCredentials, h, hs, selectSignatureType]
  · intro hs
    simp [buildCredentials, h, hs, selectSignatureType]
  · intro hs
    simp [buildCredentials, h, hs, selectSignatureType]
  · intro hs
    simp [buildCredentials, h, hs, selectSignatureType]
  · intro hs env
    exact startServer_invalid_signature env c h hs
  · intro env
    exact startServer_invalid_signature env { c with SignatureType := "" } h
      (by show "" ∉ ["V2", "V4", "V4Streaming", "Anonymous"]; decide)
  · intro env
    exact startServer_invalid_signature env { c with SignatureType := "v4" } h
      (by show "v4" ∉ ["V2", "V4", "V4Streaming", "Anonymous"]; decide)
  · intro env opts srv hok
    refine ⟨(startServer_creds env c opts srv hok).1, ?_⟩
    by_contra hn
    rw [startServer_invalid_signature env c h hn] at hok
    simp at hok
  · intro s hs t ht
    simp only [acceptedSignatureTypes, List.mem_cons, List.mem_singleton, List.not_mem_nil,
      or_false] at hs ht
    rcases hs with rfl | rfl | rfl | rfl <;> rcases ht with rfl | rfl | rfl | rfl <;>
      simp [selectSignatureType]

/-- C5 at the default signature type. -/
theorem C5_signature_type_witness :
    buildCredentials exampleConfiguration = .ok (.NewStatic "id" "secret" "" .SignatureV4) :=
  (C5_signature_type_selection exampleConfiguration rfl).2.1 rfl

/-- C6 (amended): for every non-empty bucket name without `/` and every object
key without a newline such that the request path
`/api/buckets/{bucketName}/objects/{objectName}/url` is in the router's
canonical form, a GET of that path is dispatched to `HandleGenerateUrl` and not
to the get-object handler. The get-object route matches the path as well; the
`/url` route wins because it is registered right before it. -/
theorem C6_url_route_dispatch (c : configuration) (bucketName objectName : String)
    (hb : bucketName ≠ "") (hbs : '/' ∉ bucketName.toList) (hk : '\n' ∉ objectName.toList)
    (hclean : cleanPath (objectUrlPath bucketName objectName).toList =
      (objectUrlPath bucketName objectName).toList) :
    ServeHTTP (buildRouter c) MethodGet (objectUrlPath bucketName objectName) =
      .handler .HandleGenerateUrl ∧
    (∀ forceDownload, ServeHTTP (buildRouter c) MethodGet (objectUrlPath bucketName objectName) ≠
      .handler (.HandleGetObject forceDownload)) ∧
    (Handle "/api/buckets/{bucketName}/objects/{objectName:.*}"
      (.HandleGetObject c.ForceDownload) MethodGet).Match MethodGet
        (objectUrlPath bucketName objectName) = .matched ∧
    (∃ before after, buildRouter c =
      before ++
        Handle "/api/buckets/{bucketName}/objects/{objectName:.*}/url" .HandleGenerateUrl
            MethodGet ::
          Handle "/api/buckets/{bucketName}/objects/{objectName:.*}"
            (.HandleGetObject c.ForceDownload) MethodGet :: after) := by
  have hd := url_dispatch c bucketName objectName hb hbs hk hclean
  refine ⟨hd, ?_, ?_, ?_⟩
  · intro forceDownload
    rw [hd]
    simp
  · have hp := get_route_matchPath bucketName objectName hb hbs hk
      (.HandleGetObject c.ForceDownload) MethodGet
    have hm : (Handle "/api/buckets/{bucketName}/objects/{objectName:.*}"
        (.HandleGetObject c.ForceDownload) MethodGet).matchMethod MethodGet = true := by
      simp [Handle, Route.matchMethod]
    simp [Route.Match, hp, hm]
  · rcases Bool.eq_false_or_eq_true c.AllowDelete with hdel | hdel
    · rw [buildRouter_deleteOn c hdel]
      exact ⟨[_, _, _, _, _, _, _], [_], rfl⟩
    · rw [buildRouter_deleteOff c hdel]
      exact ⟨[_, _, _, _, _, _], [], rfl⟩

/-- C6 at a key that contains `/` and ends in `/url`. -/
theorem C6_url_route_witness :
    ServeHTTP (buildRouter exampleConfiguration) MethodGet (objectUrlPath "b" "a/b/url") =
      .handler .HandleGenerateUrl :=
  (C6_url_route_dispatch exampleConfiguration "b" "a/b/url" (by decide) (by decide) (by decide) (by decide)).1

/-- C6 as stated fails: for the object key `a//b` the request path is not in
canonical form, and the router answers with a redirect to the cleaned path
instead of dispatching to `HandleGenerateUrl`. -/
theorem C6_counterexample_double_slash_key :
    ServeHTTP (buildRouter exampleConfiguration) MethodGet (objectUrlPath "b" "a//b") =
        .movedPermanently "/api/buckets/b/objects/a/b/url" ∧
      ServeHTTP (buildRouter exampleConfiguration) MethodGet (objectUrlPath "b" "a//b") ≠
        .handler .HandleGenerateUrl := by
  decide

/-- Paths outside the route patterns: a key with a newline and a bucket name
with `/` match no route, and an empty bucket name makes the path non-canonical. -/
theorem dispatch_outside_patterns :
    ServeHTTP (buildRouter exampleConfiguration) MethodGet (objectUrlPath "b" "a\nb") = .notFound ∧
    ServeHTTP (buildRouter exampleConfiguration) MethodGet (objectUrlPath "a/b" "k") = .notFound ∧
    ServeHTTP (buildRouter exampleConfiguration) MethodGet (objectUrlPath "" "k") =
      .movedPermanently "/api/buckets/objects/k/url" := by
  decide

/-- C7: when every step succeeds, the bucket list passed to the template is the
`ListBuckets` result followed by one `BucketInfo` per decoded name, in order,
with only `Name` set (zero creation time, so `time_defined` is false); its
length is the sum of the two lengths and nothing is deduplicated. With an empty
`sharedBucketsPath` the list is the `ListBuckets` result and `GetObject` is not
called. -/
theorem C7_bucket_list_passed_to_template (s3 : S3) (templates : Templates)
    (Unmarshal : List UInt8 → Except GoError (List String))
    (allowDelete : Bool) (sharedBucketsPath : String) (buckets : List BucketInfo)
    (hlist : s3.ListBuckets = .ok buckets)
    (hparse : templates.ParseFS ["layout.html.tmpl", "buckets.html.tmpl"] = none)
    (hexec : ∀ data, templates.ExecuteTemplate "layout" data = none) :
    (sharedBucketsPath = "" →
      HandleBucketsView s3 templates Unmarshal allowDelete sharedBucketsPath =
        [.ListBuckets, .ParseFS ["layout.html.tmpl", "buckets.html.tmpl"],
          .ExecuteTemplate "layout" { Buckets := buckets, AllowDelete := allowDelete }] ∧
      ∀ e ∈ HandleBucketsView s3 templates Unmarshal allowDelete sharedBucketsPath,
        e.isGetObject = false) ∧
    (∀ bucketName path object bs names, sharedBucketsPath ≠ "" →
      SplitN sharedBucketsPath '/' 2 = [bucketName, path] →
      s3.GetObject bucketName path = .ok object → object.ReadAll = .ok bs →
      Unmarshal bs = .ok names →
      HandleBucketsView s3 templates Unmarshal allowDelete sharedBucketsPath =
        [.ListBuckets, .GetObject bucketName path, .ReadAll, .Unmarshal bs,
          .ParseFS ["layout.html.tmpl", "buckets.html.tmpl"],
          .ExecuteTemplate "layout"
            { Buckets := buckets ++ names.map BucketInfo.ofName, AllowDelete := allowDelete }] ∧
      (buckets ++ names.map BucketInfo.ofName).length = buckets.length + names.length ∧
      (∀ x, (buckets ++ names.map BucketInfo.ofName).count x =
        buckets.count x + (names.map BucketInfo.ofName).count x)) ∧
    (∀ name, (BucketInfo.ofName name).Name = name ∧
      (BucketInfo.ofName name).CreationDate = { wall := 0, ext := 0 } ∧
      time_defined (BucketInfo.ofName name).CreationDate = false) := by
  refine ⟨?_, ?_, ?_⟩
  · intro hp
    subst hp
    have hrun : HandleBucketsView s3 templates Unmarshal allowDelete "" =
        [.ListBuckets, .ParseFS ["layout.html.tmpl", "buckets.html.tmpl"],
          .ExecuteTemplate "layout" { Buckets := buckets, AllowDelete := allowDelete }] := by
      simp only [HandleBucketsView, hlist, sharedBuckets_empty, render, hparse, hexec]
      rfl
    refine ⟨hrun, ?_⟩
    rw [hrun]
    simp [Event.isGetObject]
  · intro b k object bs names hne hsp hg hr hu
    refine ⟨?_, by simp, fun x => List.count_append _ _ _⟩
    simp only [HandleBucketsView, hlist, sharedBuckets_split s3 Unmarshal _ buckets hne b k hsp,
      hg, hr, hu, render, hparse, hexec, appendBuckets_eq]
    rfl
  · intro name
    exact ⟨rfl, rfl, time_defined_ofName name⟩

/-- C7 at a shared path whose object decodes to two names, one a duplicate. -/
theorem C7_bucket_list_witness :
    HandleBucketsView exampleS3 exampleTemplates exampleUnmarshal true "config/shared.yaml" =
      [.ListBuckets, .GetObject "config" "shared.yaml", .ReadAll, .Unmarshal [45, 32, 97],
        .ParseFS ["layout.html.tmpl", "buckets.html.tmpl"],
        .ExecuteTemplate "layout"
          { Buckets :=
              [{ Name := "photos", CreationDate := { wall := 0, ext := 63800000000 } }] ++
                ["photos", "shared"].map BucketInfo.ofName
            AllowDelete := true }] :=
  ((C7_bucket_list_passed_to_template exampleS3 exampleTemplates exampleUnmarshal true
    "config/shared.yaml" _ rfl rfl (fun _ => rfl)).2.1 "config" "shared.yaml"
    { ReadAll := .ok [45, 32, 97] } [45, 32, 97] ["photos", "shared"]
    (by decide) (by decide) rfl rfl rfl).1

/-- C8 (amended): once `ListBuckets` has succeeded, a non-empty
`sharedBucketsPath` is rejected with the error whose message is
`error getting shared buckets object: Shared path is not valid` if and only if
it contains no `/`; otherwise `GetObject` is called once, with the text before
the first `/` as bucket name and all the text after it as key, so that bucket
name, `/` and key concatenate to the path and the bucket name has no `/`. The
paths `/key` and `bucket/` are not rejected. -/
theorem C8_shared_path_split (s3 : S3) (templates : Templates)
    (Unmarshal : List UInt8 → Except GoError (List String))
    (allowDelete : Bool) (sharedBucketsPath : String) (buckets : List BucketInfo)
    (hne : sharedBucketsPath ≠ "") (hlist : s3.ListBuckets = .ok buckets) :
    ((Event.handleHTTPError
        (.plain "error getting shared buckets object: Shared path is not valid") ∈
        HandleBucketsView s3 templates Unmarshal allowDelete sharedBucketsPath) ↔
      '/' ∉ sharedBucketsPath.toList) ∧
    ('/' ∉ sharedBucketsPath.toList →
      HandleBucketsView s3 templates Unmarshal allowDelete sharedBucketsPath =
        [.ListBuckets, .handleHTTPError
          (.plain "error getting shared buckets object: Shared path is not valid")]) ∧
    ('/' ∈ sharedBucketsPath.toList →
      ∃ bucketName key rest,
        HandleBucketsView s3 templates Unmarshal allowDelete sharedBucketsPath =
          .ListBuckets :: .GetObject bucketName key :: rest ∧
        (∀ e ∈ rest, e.isGetObject = false) ∧
        bucketName ++ "/" ++ key = sharedBucketsPath ∧ '/' ∉ bucketName.toList) ∧
    (∃ rest, HandleBucketsView s3 templates Unmarshal allowDelete "/key" =
      .ListBuckets :: .GetObject "" "key" :: rest) ∧
    (∃ rest, HandleBucketsView s3 templates Unmarshal allowDelete "bucket/" =
      .ListBuckets :: .GetObject "bucket" "" :: rest) ∧
    ((GoError.plain "error getting shared buckets object: Shared path is not valid").Error =
        "error getting shared buckets object: Shared path is not valid" ∧
      (GoError.plain "error getting shared buckets object: Shared path is not valid").Unwrap =
        none) := by
  have hkey : ∃ rest, HandleBucketsView s3 templates Unmarshal allowDelete "/key" =
      .ListBuckets :: .GetObject "" "key" :: rest := by
    obtain ⟨rest, hrun, -, -⟩ := HandleBucketsView_getObject s3 templates Unmarshal allowDelete
      "/key" buckets "" "key" (by decide) hlist (by decide)
    exact ⟨rest, hrun⟩
  have hbucket : ∃ rest, HandleBucketsView s3 templates Unmarshal allowDelete "bucket/" =
      .ListBuckets :: .GetObject "bucket" "" :: rest := by
    obtain ⟨rest, hrun, -, -⟩ := HandleBucketsView_getObject s3 templates Unmarshal allowDelete
      "bucket/" buckets "bucket" "" (by decide) hlist (by decide)
    exact ⟨rest, hrun⟩
  by_cases hs : '/' ∈ sharedBucketsPath.toList
  · obtain ⟨b, k, hsp, hjoin, hb⟩ := SplitN_slash sharedBucketsPath hne hs
    obtain ⟨rest, hrun, hrest, hnot⟩ := HandleBucketsView_getObject s3 templates Unmarshal
      allowDelete sharedBucketsPath buckets b k hne hlist hsp
    have hnot' : Event.handleHTTPError
        (.plain "error getting shared buckets object: Shared path is not valid") ∉ rest := hnot
    refine ⟨?_, fun hn => absurd hs hn, fun _ => ⟨b, k, rest, hrun, hrest, hjoin, hb⟩, hkey,
      hbucket, rfl, rfl⟩
    rw [hrun]
    simp only [List.mem_cons, reduceCtorEq, false_or, hnot', or_false, false_iff, not_not]
    exact hs
  · have hrun : HandleBucketsView s3 templates Unmarshal allowDelete sharedBucketsPath =
        [.ListBuckets, .handleHTTPError
          (.plain "error getting shared buckets object: Shared path is not valid")] := by
      simp only [HandleBucketsView, hlist, sharedBuckets_noSlash s3 Unmarshal _ buckets hne hs]
      rfl
    refine ⟨?_, fun _ => hrun, fun h => absurd h hs, hkey, hbucket, rfl, rfl⟩
    rw [hrun]
    simp only [List.mem_cons, reduceCtorEq, false_or, List.mem_singleton, true_or, true_iff]
    exact hs

/-- C8 at a path without `/`, after a successful `ListBuckets`. -/
theorem C8_shared_path_witness :
    HandleBucketsView exampleS3 exampleTemplates exampleUnmarshal true "shared.yaml" =
      [.ListBuckets, .handleHTTPError
        (.plain "error getting shared buckets object: Shared path is not valid")] :=
  (C8_shared_path_split exampleS3 exampleTemplates exampleUnmarshal true "shared.yaml" _
    (by decide) rfl).2.1 (by decide)

/-- C8 as stated fails: when `ListBuckets` fails the handler returns before it
looks at the path, so a path without `/` is not rejected with
`Shared path is not valid`, and for a path with `/` no `GetObject` is called. -/
theorem C8_counterexample_listing_failure :
    '/' ∉ "shared.yaml".toList ∧
      Event.handleHTTPError
          (.plain "error getting shared buckets object: Shared path is not valid") ∉
        HandleBucketsView failingS3 exampleTemplates exampleUnmarshal true "shared.yaml" ∧
      '/' ∈ "config/shared.yaml".toList ∧
      (∀ e ∈ HandleBucketsView failingS3 exampleTemplates exampleUnmarshal true
          "config/shared.yaml", e.isGetObject = false) ∧
      HandleBucketsView failingS3 exampleTemplates exampleUnmarshal true "shared.yaml" =
        [.ListBuckets,
          .handleHTTPError (.wrapping "error listing buckets: connection refused"
            (.plain "connection refused"))] := by
  decide

/-- C9 (amended): credential selection depends on `UseIam` alone, once the
configuration file step is past. With `use_iam` true, `parseConfiguration`
returns empty `AccessKeyID` and `SecretAccessKey` without requiring either, and
`main` builds IAM credentials whatever `SignatureType` is. With `use_iam`
false, `parseConfiguration` aborts exactly when the access key id or the secret
access key is empty, the returned `IamEndpoint` is empty, and the credential
block of `main` aborts exactly on an invalid signature type; when, for the
parsed configuration, the CA certificate is loaded and the S3 client is
created, `main` aborts exactly in those three cases. -/
theorem C9_credentials_depend_on_useIam :
    (∀ v : Viper, (∀ err, v.readInConfig ≠ .failed err) → v.GetBool "use_iam" = true →
      ∃ c, parseConfiguration v = .ok c ∧ c.UseIam = true ∧ c.AccessKeyID = "" ∧
        c.SecretAccessKey = "" ∧ c.IamEndpoint = v.GetString "iam_endpoint") ∧
    (∀ c : configuration, c.UseIam = true → ∀ signatureType,
      buildCredentials { c with SignatureType := signatureType } = .ok (.NewIAM c.IamEndpoint) ∧
      ∀ env, startServer env { c with SignatureType := signatureType } = startServer env c) ∧
    (∀ v : Viper, (∀ err, v.readInConfig ≠ .failed err) → v.GetBool "use_iam" = false →
      ((∃ msg, parseConfiguration v = .error msg) ↔
        (v.GetString "access_key_id" = "" ∨ v.GetString "secret_access_key" = "")) ∧
      (∀ c, parseConfiguration v = .ok c →
        c.UseIam = false ∧ c.IamEndpoint = "" ∧ c.AccessKeyID = v.GetString "access_key_id" ∧
          c.SecretAccessKey = v.GetString "secret_access_key")) ∧
    (∀ c : configuration, c.UseIam = false →
      ((∃ msg, buildCredentials c = .error msg) ↔ c.SignatureType ∉ acceptedSignatureTypes)) ∧
    (∀ env : Env, (∀ err, env.viper.readInConfig ≠ .failed err) →
      env.viper.GetBool "use_iam" = false →
      (∀ c, parseConfiguration env.viper = .ok c → ∃ t, buildTransport env c = .ok t) →
      (∀ c creds t, parseConfiguration env.viper = .ok c → buildCredentials c = .ok creds →
        buildTransport env c = .ok t →
        env.minioNew c.Endpoint
          { Secure := c.UseSSL
            Creds := creds
            Region := if c.Region ≠ "" then c.Region else ""
            Transport := t } = none) →
      ((∃ msg, main env = .error msg) ↔
        (env.viper.GetString "access_key_id" = "" ∨
          env.viper.GetString "secret_access_key" = "" ∨
          ∃ c, parseConfiguration env.viper = .ok c ∧
            c.SignatureType ∉ acceptedSignatureTypes))) := by
  have hstatic : ∀ v : Viper, (∀ err, v.readInConfig ≠ .failed err) →
      v.GetBool "use_iam" = false →
      ((∃ msg, parseConfiguration v = .error msg) ↔
        (v.GetString "access_key_id" = "" ∨ v.GetString "secret_access_key" = "")) ∧
      (∀ c, parseConfiguration v = .ok c →
        c.UseIam = false ∧ c.IamEndpoint = "" ∧ c.AccessKeyID = v.GetString "access_key_id" ∧
          c.SecretAccessKey = v.GetString "secret_access_key") := by
    intro v hread huse
    obtain ⟨herr, hok⟩ := parseConfiguration_credentials v hread
    rw [huse, credentialSettings_static] at herr hok
    by_cases ha : v.GetString "access_key_id" = ""
    · have he := herr "please provide ACCESS_KEY_ID" (by simp [ha])
      refine ⟨⟨fun _ => Or.inl ha, fun _ => ⟨_, he⟩⟩, ?_⟩
      intro c hc
      rw [he] at hc
      simp at hc
    · by_cases hs : v.GetString "secret_access_key" = ""
      · have he := herr "please provide SECRET_ACCESS_KEY" (by simp [ha, hs])
        refine ⟨⟨fun _ => Or.inr hs, fun _ => ⟨_, he⟩⟩, ?_⟩
        intro c hc
        rw [he] at hc
        simp at hc
      · obtain ⟨c, hc, h1, h2, h3, h4⟩ := hok "" (v.GetString "access_key_id")
          (v.GetString "secret_access_key") (by simp [ha, hs])
        constructor
        · constructor
          · rintro ⟨msg, hm⟩
            rw [hc] at hm
            simp at hm
          · rintro (h | h)
            · exact absurd h ha
            · exact absurd h hs
        · intro c' hc'
          rw [hc] at hc'
          simp only [Except.ok.injEq] at hc'
          subst hc'
          exact ⟨h1, h2, h3, h4⟩
  refine ⟨?_, ?_, hstatic, buildCredentials_error_iff, ?_⟩
  · intro v hread huse
    obtain ⟨-, hok⟩ := parseConfiguration_credentials v hread
    rw [huse, credentialSettings_iam] at hok
    obtain ⟨c, hc, h1, h2, h3, h4⟩ := hok _ _ _ rfl
    exact ⟨c, hc, h1, h3, h4, h2⟩
  · intro c h signatureType
    refine ⟨by simp [buildCredentials, h], fun env => ?_⟩
    have e2 : buildTransport env { c with SignatureType := signatureType } =
        buildTransport env c := rfl
    have e3 : buildRouter { c with SignatureType := signatureType } = buildRouter c := rfl
    have e4 : serverTimeout { c with SignatureType := signatureType } = serverTimeout c := rfl
    have e1 : buildCredentials { c with SignatureType := signatureType } =
        buildCredentials c := by
      simp [buildCredentials, h]
    simp only [startServer, e1, e2, e3, e4]
  · intro env hread huse ht hn
    obtain ⟨hiff, hfields⟩ := hstatic env.viper hread huse
    unfold main
    cases hp : parseConfiguration env.viper with
    | error msg =>
      have hor := hiff.mp ⟨msg, hp⟩
      constructor
      · intro _
        rcases hor with h | h
        · exact Or.inl h
        · exact Or.inr (Or.inl h)
      · intro _
        exact ⟨msg, rfl⟩
    | ok c =>
      have hnot : ¬ (env.viper.GetString "access_key_id" = "" ∨
          env.viper.GetString "secret_access_key" = "") := by
        intro hor
        obtain ⟨msg, hm⟩ := hiff.mpr hor
        rw [hp] at hm
        simp at hm
      have huse' := (hfields c hp).1
      dsimp only
      rw [startServer_error_iff env c (ht c hp) (fun creds t hc htt => hn c creds t hp hc htt),
        buildCredentials_error_iff c huse']
      constructor
      · intro h
        exact Or.inr (Or.inr ⟨c, rfl, h⟩)
      · rintro (h | h | ⟨c', hc', h⟩)
        · exact absurd (Or.inl h) hnot
        · exact absurd (Or.inr h) hnot
        · simp only [Except.ok.injEq] at hc'
          subst hc'
          exact h

/-- C9 at the example environment: the other start-up steps succeed there, and
`main` does not abort. -/
theorem C9_credentials_witness :
    ((∃ msg, main exampleEnv = .error msg) ↔
      (exampleEnv.viper.GetString "access_key_id" = "" ∨
        exampleEnv.viper.GetString "secret_access_key" = "" ∨
        ∃ c, parseConfiguration exampleEnv.viper = .ok c ∧
          c.SignatureType ∉ acceptedSignatureTypes)) ∧
      buildCredentials { iamConfiguration with SignatureType := "bogus" } = .ok (.NewIAM "") :=
  ⟨C9_credentials_depend_on_useIam.2.2.2.2 exampleEnv
      (fun err h => by cases h) rfl
      (fun c hc => by
        have hc' : c = exampleConfiguration := by
          have h := hc.symm.trans parse_example
          simpa using h
        subst hc'
        exact ⟨_, rfl⟩)
      (fun _ _ _ _ _ _ => rfl),
    ((C9_credentials_depend_on_useIam.2.1 iamConfiguration rfl) "bogus").1⟩

/-- C9 as stated fails: with `use_iam` false, both keys set and the default
signature type, start-up still aborts when the CA certificate file cannot be
read. -/
theorem C9_counterexample_unreadable_ca_cert :
    main unreadableCaEnv =
        .error ("Failed to read CA certificate file: " ++
          "open /etc/ssl/missing.pem: no such file or directory") ∧
      unreadableCaEnv.viper.GetBool "use_iam" = false ∧
      unreadableCaEnv.viper.GetString "access_key_id" ≠ "" ∧
      unreadableCaEnv.viper.GetString "secret_access_key" ≠ "" ∧
      (∃ c, parseConfiguration unreadableCaEnv.viper = .ok c ∧ c.SignatureType = "V4") ∧
      ¬ ((∃ msg, main unreadableCaEnv = .error msg) ↔
        (unreadableCaEnv.viper.GetString "access_key_id" = "" ∨
          unreadableCaEnv.viper.GetString "secret_access_key" = "" ∨
          ∃ c, parseConfiguration unreadableCaEnv.viper = .ok c ∧
            c.SignatureType ∉ acceptedSignatureTypes)) := by
  have hmain : main unreadableCaEnv =
      .error ("Failed to read CA certificate file: " ++
        "open /etc/ssl/missing.pem: no such file or directory") := by rfl
  refine ⟨hmain, rfl, by decide, by decide, ⟨unreadableCaConfiguration, rfl, rfl⟩, ?_⟩
  intro hiff
  rcases hiff.mp ⟨_, hmain⟩ with h | h | ⟨c, hc, hs⟩
  · exact absurd h (by decide)
  · exact absurd h (by decide)
  · have hc' : c = unreadableCaConfiguration := by
      have h := hc.symm.trans parse_unreadableCa
      simpa using h
    subst hc'
    exact hs (by decide)

/-- C10: for every `int32` value of `Timeout` the server timeout
`time.Duration(Timeout) * time.Second` is exactly `Timeout * 1000000000`
nanoseconds, with no wrap-around in `int64`; `ReadTimeout` and `WriteTimeout`
both carry it; it is 600 seconds when no timeout is configured; and a zero or
negative `Timeout` gives a zero or negative duration while start-up succeeds or
fails as it would for any other value. -/
theorem C10_server_timeout_exact (c : configuration) (h1 : -2 ^ 31 ≤ c.Timeout) (h2 : c.Timeout < 2 ^ 31) :
    serverTimeout c = c.Timeout * 1000000000 ∧
    |c.Timeout| * 10 ^ 9 < 2 ^ 63 ∧
    (∀ env opts srv, startServer env c = .ok (opts, srv) →
      srv.ReadTimeout = serverTimeout c ∧ srv.WriteTimeout = serverTimeout c) ∧
    (c.Timeout = 0 → serverTimeout c = 0) ∧
    (c.Timeout < 0 → serverTimeout c < 0) ∧
    (∀ env t, (startServer env { c with Timeout := t }).isOk = (startServer env c).isOk) ∧
    (∀ v c', parseConfiguration v = .ok c' →
      (-2 ^ 31 ≤ c'.Timeout ∧ c'.Timeout < 2 ^ 31) ∧
      (v.int32s "timeout" = none → c'.Timeout = 600 ∧ serverTimeout c' = 600 * Second)) := by
  have hexact := serverTimeout_exact c h1 h2
  refine ⟨hexact, ?_, ?_, ?_, ?_, ?_, ?_⟩
  · rcases abs_cases c.Timeout with ⟨ha, _⟩ | ⟨ha, _⟩ <;> rw [ha] <;> omega
  · intro env opts srv hok
    exact (startServer_creds env c opts srv hok).2.2
  · intro h0
    rw [hexact, h0]
    rfl
  · intro hneg
    rw [hexact]
    omega
  · intro env t
    have e1 : buildCredentials { c with Timeout := t } = buildCredentials c := rfl
    have e2 : buildTransport env { c with Timeout := t } = buildTransport env c := rfl
    simp only [startServer, fsSub_template, fsSub_static, e1, e2]
    cases buildCredentials c with
    | error msg => rfl
    | ok creds =>
      cases buildTransport env c with
      | error msg => rfl
      | ok transport =>
        dsimp only
        cases env.minioNew c.Endpoint
          { Secure := c.UseSSL
            Creds := creds
            Region := if c.Region ≠ "" then c.Region else ""
            Transport := transport } <;>
          rfl
  · intro v c' hp
    obtain ⟨hb, hd⟩ := parseConfiguration_timeout v c' hp
    refine ⟨hb, fun hn => ?_⟩
    have h600 := hd hn
    refine ⟨h600, ?_⟩
    rw [serverTimeout_exact c' hb.1 hb.2, h600]
    rfl

/-- C10 at the default timeout. -/
theorem C10_server_timeout_witness :
    serverTimeout exampleConfiguration = 600 * 1000000000 :=
  (C10_server_timeout_exact exampleConfiguration (by decide) (by decide)).1

end S3Manager
